import Mathlib

/-!
Verification development for the cancer-simulator core in
`src/Biotechnology Simulator/script.js`.

The script is shallowly embedded here.  Conventions:
* JS numbers are modelled as `ℚ`; the transcendental helpers the script uses
  (`Math.hypot`, `Math.sin`/`Math.cos` inside `vesselBoundaryX` /
  `vesselTangentDerivative`, `Math.PI`) are environment parameters of type
  `ℚ → ℚ` etc., collected in `Geo`; theorems either hold for every choice of
  these functions or instantiate them with exact rational witnesses.
* `Math.random()` is an explicit stream `rnd : ℕ → ℚ` with a counter threaded
  through every definition in the exact order the script draws randoms.
* JS objects held by reference in both `particles` and the local `spawned`
  array are modelled arena-style: a `store : List Particle` holds the objects,
  and `particles` / `spawned` are lists of indices into the store, so aliasing
  (the same object appended twice) is represented faithfully.
* `cells[i]` reads are modelled with `List.get?`; a JS read that would yield
  `undefined` corresponds to `none`.
-/

/-- Particle type tag: the script's strings `'compound'` and `'Y'`. -/
inductive PType where
  | compound : PType
  | Y : PType
deriving Repr, DecidableEq

/-- One grid site (the script's cell objects `{x, y, state, size}`);
`state` is `0` (healthy) or `1` (tumor) as in the script. -/
structure Cell where
  x : ℚ
  y : ℚ
  state : ℕ
  size : ℚ
deriving Repr, DecidableEq

/-- One drug particle.  Fields mirror the script's ad-hoc object fields;
optional fields model properties that may be `undefined` in JS.
(The script also sets a `hasC` flag at dose time; it is never read, so it is
not modelled.) -/
structure Particle where
  x : ℚ
  y : ℚ
  vx : ℚ
  vy : ℚ
  ptype : PType
  leached : Bool
  targetIdx : Option ℕ
  parentIdx : Option ℕ
  idle : Bool
  wander : Bool
  ttl : Option ℤ
  dead : Bool
  steerAggression : Option ℚ
deriving Repr, DecidableEq

/-- Fixed geometry/environment of one page load: canvas size, the vessel
boundary `vesselBoundaryX` (closed form `vesselX + slope·y + amplitude·sin(freq·y
+ phase)` abstracted as a function, since `phase` is random and `sin` is
transcendental), its derivative `vesselTangentDerivative`, `Math.hypot`,
`Math.cos`, `Math.sin` and `Math.PI`. -/
structure Geo where
  w : ℚ
  h : ℚ
  boundaryX : ℚ → ℚ
  tangentD : ℚ → ℚ
  hyp : ℚ → ℚ → ℚ
  cosf : ℚ → ℚ
  sinf : ℚ → ℚ
  piQ : ℚ

/-- Per-call external inputs: the `Math.random()` stream and the three slider
values (`growthRate.value`, `drugAmount.value`, `startAmount.value`). -/
structure Inputs where
  rnd : ℕ → ℚ
  growthRate : ℚ
  drugAmount : ℚ
  startAmount : ℚ

/-- JS `Math.round x = Math.floor (x + 0.5)`. -/
def jsRound (q : ℚ) : ℤ := ⌊q + 1/2⌋

/-- Grid spacing: `const spacing = 18`. -/
def spacing : ℚ := 18

/-- `const cols = Math.floor(canvas.width / spacing)`. -/
def gridCols (geo : Geo) : ℕ := (⌊geo.w / spacing⌋).toNat

/-- `const rows = Math.floor(canvas.height / spacing)`. -/
def gridRows (geo : Geo) : ℕ := (⌊geo.h / spacing⌋).toNat

/-- `isInVesselXY(x,y) = x >= vesselBoundaryX(y)`. -/
def isInVesselXY (geo : Geo) (x y : ℚ) : Bool := geo.boundaryX y ≤ x

/-- `cellIndex(ix,iy)`: `-1` out of bounds, else `iy*cols+ix`. -/
def cellIndex (cols rows : ℕ) (ix iy : ℤ) : ℤ :=
  if ix < 0 ∨ iy < 0 ∨ (cols : ℤ) ≤ ix ∨ (rows : ℤ) ≤ iy then -1 else iy * cols + ix

/-- `initCells()`: the row-major grid of healthy cells at
`(spacing/2 + ix·spacing, spacing/2 + iy·spacing)`. -/
def initCells (geo : Geo) : List Cell :=
  (List.range (gridRows geo)).flatMap (fun iy =>
    (List.range (gridCols geo)).map (fun ix =>
      { x := spacing/2 + ix * spacing, y := spacing/2 + iy * spacing
        state := 0, size := 0 }))

/-- The grid x-coordinate the script reconstructs from a continuous position:
`Math.round((c.x - spacing/2) / spacing)`. -/
def derivedIx (c : Cell) : ℤ := jsRound ((c.x - spacing/2) / spacing)

/-- As `derivedIx`, for y. -/
def derivedIy (c : Cell) : ℤ := jsRound ((c.y - spacing/2) / spacing)

/-- The 8-neighborhood offsets `(ox, oy)` in the script's loop order
(`oy` outer from `-1` to `1`, `ox` inner, skipping `(0,0)`). -/
def neighborOffsets : List (ℤ × ℤ) :=
  [(-1,-1),(0,-1),(1,-1),(-1,0),(1,0),(-1,1),(0,1),(1,1)]

/-- `idx >= 0 && cells[idx] && cells[idx].state === 1`. -/
def tumorAtZ (cells : List Cell) (idx : ℤ) : Bool :=
  0 ≤ idx &&
    (match cells[idx.toNat]? with
     | some c => c.state == 1
     | none => false)

/-- `neighborsCount(i)`: how many of the 8 neighbors are tumor. -/
def neighborsCount (geo : Geo) (cells : List Cell) (i : ℕ) : ℕ :=
  match cells[i]? with
  | none => 0
  | some c =>
    (neighborOffsets.filter (fun od =>
      tumorAtZ cells
        (cellIndex (gridCols geo) (gridRows geo) (derivedIx c + od.1) (derivedIy c + od.2)))).length

/-- `neighborTumorIndicesForCellIdx(idx)`: the tumor neighbors' indices in
scan order. -/
def neighborTumorIndicesForCellIdx (geo : Geo) (cells : List Cell) (idx : ℕ) : List ℕ :=
  match cells[idx]? with
  | none => []
  | some c =>
    neighborOffsets.filterMap (fun od =>
      let nidx := cellIndex (gridCols geo) (gridRows geo) (derivedIx c + od.1) (derivedIy c + od.2)
      if tumorAtZ cells nidx then some nidx.toNat else none)

/-- `normalized(vx,vy)`: `m = Math.hypot(vx,vy) || 1`, returns `(vx/m, vy/m)`.
`Math.hypot` never returns a negative number, so the JS falsiness test on `m`
is exactly the test `= 0` here. -/
def normalized (geo : Geo) (vx vy : ℚ) : ℚ × ℚ :=
  let m := if geo.hyp vx vy = 0 then 1 else geo.hyp vx vy
  (vx / m, vy / m)

/-- The denominator `normalized` divides by. -/
def normalizedDenom (geo : Geo) (vx vy : ℚ) : ℚ :=
  if geo.hyp vx vy = 0 then 1 else geo.hyp vx vy

/-- Structurally recursive integer square root (largest `k` with `k*k ≤ n`),
kernel-reducible unlike `Nat.sqrt`. -/
def natSqrtGo (n : ℕ) : ℕ → ℕ → ℕ
  | 0, k => k
  | f+1, k => if (k+1)*(k+1) ≤ n then natSqrtGo n f (k+1) else k

/-- Integer square root by climbing; `natSqrtQ n * natSqrtQ n ≤ n`. -/
def natSqrtQ (n : ℕ) : ℕ := natSqrtGo n n 0

/-- An exact-rational stand-in for `Math.sqrt` on perfect squares, used to
instantiate `Geo.hyp` in concrete witnesses (all distances compared in the
witnesses are of the form `√(d² + 0)` and hence exact). -/
def ratSqrt (q : ℚ) : ℚ := (natSqrtQ q.num.toNat : ℚ) / (natSqrtQ q.den : ℚ)

/-- Exact-rational `Math.hypot` for witnesses. -/
def ratHyp (x y : ℚ) : ℚ := ratSqrt (x^2 + y^2)

/-! ## Tumor growth automaton (script lines 60–81) -/

/-- `leechSpeedBase * (1 + Number(drugAmount.value)/120)` with
`leechSpeedBase = 2.4`. -/
def leechSpeed (inp : Inputs) : ℚ := 12/5 * (1 + inp.drugAmount / 120)

/-- `vesselSpeedBase * (1 + Number(drugAmount.value)/80)` with
`vesselSpeedBase = 3.2`. -/
def vesselSpeed (inp : Inputs) : ℚ := 16/5 * (1 + inp.drugAmount / 80)

/-- Per-neighbor conversion probability `g = Number(growthRate.value)/15000`. -/
def growthG (rate : ℚ) : ℚ := rate / 15000

/-- Growth event probability `prob = 1 - (1-g)^neigh`. -/
def growthProb (rate : ℚ) (n : ℕ) : ℚ := 1 - (1 - growthG rate)^n

/-- The scan of the growth phase: one flag per cell (the `newStates` array),
threading the random counter.  A flag is `true` for an existing tumor cell, or
for a healthy non-vessel cell with `neigh > 0` whose random draw beats `prob`.
(The script also stores `newStates[i+'_size']` for tumor cells; that string
key is never read back, so it is not modelled.) -/
def growthScanGo (geo : Geo) (inp : Inputs) (cells : List Cell) :
    List ℕ → ℕ → List Bool × ℕ
  | [], k => ([], k)
  | i :: rest, k =>
    match cells[i]? with
    | none =>
      let r := growthScanGo geo inp cells rest k
      (false :: r.1, r.2)
    | some c =>
      if c.state == 1 then
        let r := growthScanGo geo inp cells rest k
        (true :: r.1, r.2)
      else if isInVesselXY geo c.x c.y then
        let r := growthScanGo geo inp cells rest k
        (false :: r.1, r.2)
      else
        let n := neighborsCount geo cells i
        if 0 < n then
          let flag := decide (inp.rnd k < growthProb inp.growthRate n)
          let r := growthScanGo geo inp cells rest (k+1)
          (flag :: r.1, r.2)
        else
          let r := growthScanGo geo inp cells rest k
          (false :: r.1, r.2)

/-- The apply loop: convert each flagged healthy cell, drawing its size
`6 + Math.random()*10`. -/
def growthApplyGo (inp : Inputs) : List Cell → List Bool → ℕ → List Cell × ℕ
  | [], _, k => ([], k)
  | c :: cs, [], k =>
    let r := growthApplyGo inp cs [] k
    (c :: r.1, r.2)
  | c :: cs, f :: fs, k =>
    if f && c.state == 0 then
      let c' := { c with state := 1, size := 6 + inp.rnd k * 10 }
      let r := growthApplyGo inp cs fs (k+1)
      (c' :: r.1, r.2)
    else
      let r := growthApplyGo inp cs fs k
      (c :: r.1, r.2)

/-- The whole growth phase of `stepSimulation` (scan then apply). -/
def growthPass (geo : Geo) (inp : Inputs) (cells : List Cell) (k : ℕ) :
    List Cell × ℕ :=
  let r := growthScanGo geo inp cells (List.range cells.length) k
  growthApplyGo inp cells r.1 r.2

/-! ## Particle transport (script lines 85–190) -/

/-- Lines 93–104: a non-idle `Y` with a target steers straight at it while the
target is alive, else goes idle with zero velocity. -/
def ySteerUpd (geo : Geo) (inp : Inputs) (cells : List Cell) (p : Particle) : Particle :=
  if p.ptype = PType.Y ∧ ¬ p.idle then
    match p.targetIdx with
    | none => p
    | some ti =>
      match cells[ti]? with
      | some tgt =>
        if tgt.state == 1 then
          let dirTo := normalized geo (tgt.x - p.x) (tgt.y - p.y)
          let speed := leechSpeed inp
          { p with vx := dirTo.1 * speed, vy := dirTo.2 * speed }
        else
          { p with idle := true, vx := 0, vy := 0 }
      | none =>
        { p with idle := true, vx := 0, vy := 0 }
  else p

/-- The `bestIdx/bestD` scan the script repeats in several places:
`bestIdx=-1; bestD=1e9;` then for each tumor cell keep the strictly nearer
one (by `Math.hypot`). -/
def nearestTumorGo (geo : Geo) (px py : ℚ) :
    List (ℕ × Cell) → ℤ × ℚ → ℤ × ℚ
  | [], best => best
  | (ti, t) :: rest, best =>
    if t.state == 1 then
      let d := geo.hyp (t.x - px) (t.y - py)
      if d < best.2 then nearestTumorGo geo px py rest (ti, d)
      else nearestTumorGo geo px py rest best
    else nearestTumorGo geo px py rest best

/-- Nearest-tumor scan over all cells from `(px,py)`. -/
def nearestTumorIdx (geo : Geo) (cells : List Cell) (px py : ℚ) : ℤ × ℚ :=
  nearestTumorGo geo px py cells.enum (-1, 10^9)

/-- Lines 107–125: a leached, non-idle compound with a target steers at it
while alive; if the target died it re-targets the nearest tumor (velocity kept),
or goes idle if none remains. -/
def compoundRetargetUpd (geo : Geo) (inp : Inputs) (cells : List Cell)
    (p : Particle) : Particle :=
  if p.ptype = PType.compound ∧ p.leached ∧ ¬ p.idle then
    match p.targetIdx with
    | none => p
    | some ti =>
      match cells[ti]? with
      | some tgt =>
        if tgt.state == 1 then
          let dirTo := normalized geo (tgt.x - p.x) (tgt.y - p.y)
          let speed := leechSpeed inp
          { p with vx := dirTo.1 * speed, vy := dirTo.2 * speed }
        else
          let best := nearestTumorIdx geo cells p.x p.y
          if 0 ≤ best.1 then { p with targetIdx := some best.1.toNat }
          else { p with idle := true, vx := 0, vy := 0 }
      | none =>
        let best := nearestTumorIdx geo cells p.x p.y
        if 0 ≤ best.1 then { p with targetIdx := some best.1.toNat }
        else { p with idle := true, vx := 0, vy := 0 }
  else p

/-- Line 128: `part.x += part.vx; part.y += part.vy`. -/
def integrateUpd (p : Particle) : Particle :=
  { p with x := p.x + p.vx, y := p.y + p.vy }

/-- The "push perpendicular into muscle" fallback (lines 145–150 / 154–159):
normalize `(-1, dx/dy)` and flip it if its x-component is positive. -/
def perpVelocity (geo : Geo) (y speed : ℚ) : ℚ × ℚ :=
  let dxdy := geo.tangentD y
  let nn := normalized geo (-1) dxdy
  let nn2 := if 0 < nn.1 then (-nn.1, -nn.2) else nn
  (nn2.1 * speed, nn2.2 * speed)

/-- Lines 131–190: behavior of a particle that has not yet leached.  On
crossing the boundary it leaches (velocity to target if compound with a live
target, else perpendicular into tissue); otherwise it re-aligns to the vessel
tangent, blended toward the target for targeted compounds. -/
def unleachedUpd (geo : Geo) (inp : Inputs) (cells : List Cell)
    (p : Particle) : Particle :=
  if p.leached then p
  else
    let bX := geo.boundaryX p.y
    if p.x ≤ bX then
      let speed := leechSpeed inp
      let pL := { p with leached := true }
      match pL.ptype, pL.targetIdx with
      | PType.compound, some ti =>
        (match cells[ti]? with
         | some tgt =>
           if tgt.state == 1 then
             let dirTo := normalized geo (tgt.x - pL.x) (tgt.y - pL.y)
             { pL with vx := dirTo.1 * speed, vy := dirTo.2 * speed }
           else
             let v := perpVelocity geo pL.y speed
             { pL with vx := v.1, vy := v.2 }
         | none =>
           let v := perpVelocity geo pL.y speed
           { pL with vx := v.1, vy := v.2 })
      | _, _ =>
        let v := perpVelocity geo pL.y speed
        { pL with vx := v.1, vy := v.2 }
    else
      let dxdy := geo.tangentD p.y
      let dir := normalized geo (-1) (-dxdy)
      match p.ptype, p.targetIdx with
      | PType.compound, some ti =>
        (match cells[ti]? with
         | some tgt =>
           let tdir := normalized geo (tgt.x - p.x) (tgt.y - p.y)
           let alpha := p.steerAggression.getD (9/10)
           let mixX := dir.1 * (1 - alpha) + tdir.1 * alpha
           let mixY := dir.2 * (1 - alpha) + tdir.2 * alpha
           let nd := normalized geo mixX mixY
           let speed := vesselSpeed inp * (1 + (alpha - 1/2) * (2/5))
           { p with vx := nd.1 * speed, vy := nd.2 * speed }
         | none =>
           let speed := vesselSpeed inp
           { p with vx := dir.1 * speed, vy := dir.2 * speed })
      | _, _ =>
        let speed := vesselSpeed inp
        { p with vx := dir.1 * speed, vy := dir.2 * speed }

/-! ## Kill-cascade interaction (script lines 192–308) -/

/-- The mutable context the interaction code touches besides the current
particle: the grid, the particle arena, the tick-local `spawned` id list and
the random counter. -/
structure World where
  cells : List Cell
  store : List Particle
  spawned : List ℕ
  k : ℕ
deriving Repr

/-- `c.state = 0; c.size = 0;` at one index. -/
def killCell (cells : List Cell) (i : ℕ) : List Cell :=
  match cells[i]? with
  | some c => cells.set i { c with state := 0, size := 0 }
  | none => cells

/-- `if(cells[pick] && cells[pick].state === 1){ kill }`. -/
def killCellIfTumor (cells : List Cell) (i : ℕ) : List Cell :=
  match cells[i]? with
  | some c => if c.state == 1 then killCell cells i else cells
  | none => cells

/-- Append one freshly created particle object: `spawned.push({...})` makes a
new object (a new arena id) and records the reference in `spawned`. -/
def pushSpawn (w : World) (p : Particle) : World :=
  { w with store := w.store ++ [p], spawned := w.spawned ++ [w.store.length] }

/-- The 30%-cascade at lines 217–221 / 268–274 / 289–294: if the given
neighbor list is nonempty, draw once; under `0.30`, draw an index and kill
that neighbor if still tumor.  Returns the new cells and random counter
(randoms are drawn only as the `&&` short-circuit reaches them). -/
def cascadeKill (inp : Inputs) (cells : List Cell) (nn : List ℕ) (k : ℕ) :
    List Cell × ℕ :=
  if 0 < nn.length then
    if inp.rnd k < 3/10 then
      let j := (⌊inp.rnd (k+1) * nn.length⌋).toNat
      match nn[j]? with
      | some pick => (killCellIfTumor cells pick, k + 2)
      | none => (cells, k + 2)
    else (cells, k + 1)
  else (cells, k)

/-- A blank particle record used as the base of the `spawned.push({...})`
object literals; every field the script's literal sets is overridden at the
use site, and the remaining fields are the literal's absent (undefined /
false) properties. -/
def blankSpawn : Particle :=
  { x := 0, y := 0, vx := 0, vy := 0, ptype := PType.Y, leached := false
    targetIdx := none, parentIdx := none, idle := false, wander := false
    ttl := none, dead := false, steerAggression := none }

/-- One pass of the `for(let k=0;k<4;k++)` split loop (lines 205–245):
spawn the `kk`-th Y for a compound that contacted cell `cIdx`, where `nts` is
the neighbor-tumor list computed once after the contact kill.  Note the
script reads `c.size` (and `t.size` in the visual-Y branch) after zeroing it,
so the random positional offsets collapse to the cell center. -/
def splitOne (geo : Geo) (inp : Inputs) (cIdx : ℕ) (nts : List ℕ) (kk : ℕ)
    (w : World) : World :=
  match w.cells[cIdx]? with
  | none => w
  | some c =>
    let rx := c.x + (inp.rnd w.k - 1/2) * c.size * (45/100)
    let ry := c.y + (inp.rnd (w.k+1) - 1/2) * c.size * (45/100)
    let sp := 9/10 + inp.rnd (w.k+2) * (2/5)
    let w1 := { w with k := w.k + 3 }
    if 0 < nts.length then
      let tIdx := nts[kk % nts.length]?.getD 0
      match w1.cells[tIdx]? with
      | none => w1
      | some t =>
        if t.state == 1 then
          let cells2 := killCell w1.cells tIdx
          let nn := neighborTumorIndicesForCellIdx geo cells2 tIdx
          let ck := cascadeKill inp cells2 nn w1.k
          let cells3 := ck.1
          let k3 := ck.2
          let t2 := cells3[tIdx]?.getD t
          let py := { blankSpawn with
            x := t2.x + (inp.rnd k3 - 1/2) * t2.size * (2/5)
            y := t2.y + (inp.rnd (k3+1) - 1/2) * t2.size * (2/5)
            vx := 0, vy := 0, ptype := PType.Y, ttl := some 80
            leached := true, idle := true, parentIdx := some cIdx }
          pushSpawn { w1 with cells := cells3, k := k3 + 2 } py
        else
          let dir := normalized geo (t.x - rx) (t.y - ry)
          pushSpawn w1 { blankSpawn with
            x := rx, y := ry, vx := dir.1 * sp, vy := dir.2 * sp
            ptype := PType.Y, ttl := some 220, leached := true
            targetIdx := some tIdx, parentIdx := some cIdx }
    else
      let best := nearestTumorIdx geo w1.cells rx ry
      if 0 ≤ best.1 then
        match w1.cells[best.1.toNat]? with
        | none => w1
        | some t =>
          let dir := normalized geo (t.x - rx) (t.y - ry)
          pushSpawn w1 { blankSpawn with
            x := rx, y := ry, vx := dir.1 * sp, vy := dir.2 * sp
            ptype := PType.Y, ttl := some 220, leached := true
            targetIdx := some best.1.toNat, parentIdx := some cIdx }
      else
        pushSpawn w1 { blankSpawn with
          x := rx, y := ry, vx := 0, vy := 0, ptype := PType.Y
          ttl := some 80, leached := true, idle := true
          parentIdx := some cIdx }

/-- Lines 198–247: the whole split for a compound contacting tumor cell
`cIdx` — kill the contacted cell, compute its neighbor-tumor list once, then
run the 4-pass spawn loop. -/
def splitAll (geo : Geo) (inp : Inputs) (cIdx : ℕ) (w : World) : World :=
  let cells1 := killCell w.cells cIdx
  let nts := neighborTumorIndicesForCellIdx geo cells1 cIdx
  let w1 := { w with cells := cells1 }
  splitOne geo inp cIdx nts 3
    (splitOne geo inp cIdx nts 2
      (splitOne geo inp cIdx nts 1
        (splitOne geo inp cIdx nts 0 w1)))

/-- The first tumor cell within `size + addR` of `(px,py)` in ascending index
order (the `break` of the contact scans at lines 194–250 / 283–299). -/
def firstContactGo (geo : Geo) (px py addR : ℚ) : List (ℕ × Cell) → Option ℕ
  | [] => none
  | (i, c) :: rest =>
    if c.state == 1 ∧ geo.hyp (c.x - px) (c.y - py) ≤ c.size + addR then some i
    else firstContactGo geo px py addR rest

/-- Contact scan over all cells. -/
def firstContact (geo : Geo) (cells : List Cell) (px py addR : ℚ) : Option ℕ :=
  firstContactGo geo px py addR cells.enum

/-- Mark the particle at arena id `pid` dead. -/
def markDead (store : List Particle) (pid : ℕ) : List Particle :=
  match store[pid]? with
  | some p => store.set pid { p with dead := true }
  | none => store

/-- Lines 254–301: the Y-interaction block exactly as written.  In the script
this block is NESTED INSIDE `if(part.type === 'compound' && part.leached)`
(the brace at line 308 closes that `if`, not the particle loop), so the guard
`part.type === 'Y'` can never hold where the block sits; it is embedded
anyway, at its actual position, so its unreachability is provable rather than
assumed. -/
def yInteract (geo : Geo) (inp : Inputs) (w : World) (pid : ℕ) : World :=
  match w.store[pid]? with
  | none => w
  | some p =>
    if p.ptype = PType.Y then
      match p.targetIdx with
      | some ti =>
        (match w.cells[ti]? with
         | some tgt =>
           if tgt.state == 1 then
             if geo.hyp (tgt.x - p.x) (tgt.y - p.y) ≤ tgt.size + 10 then
               let cells1 := killCell w.cells ti
               let cells2 :=
                 match p.parentIdx with
                 | some par => killCellIfTumor cells1 par
                 | none => cells1
               let nIdxs := neighborTumorIndicesForCellIdx geo cells2 ti
               let ck := cascadeKill inp cells2 nIdxs w.k
               { w with cells := ck.1, k := ck.2, store := markDead w.store pid }
             else w
           else { w with store := markDead w.store pid }
         | none => { w with store := markDead w.store pid })
      | none =>
        match firstContact geo w.cells p.x p.y 10 with
        | some cIdx =>
          let cells1 := killCell w.cells cIdx
          let nIdxs := neighborTumorIndicesForCellIdx geo cells1 cIdx
          let ck := cascadeKill inp cells1 nIdxs w.k
          { w with cells := ck.1, k := ck.2, store := markDead w.store pid }
        | none => w
    else w

/-- Lines 193–250: the contact scan and split of a leached compound at
`(px, py)`; on first contact the compound is marked dead after the split. -/
def splitStage (geo : Geo) (inp : Inputs) (w : World) (pid : ℕ) (px py : ℚ) : World :=
  match firstContact geo w.cells px py 9 with
  | some cIdx =>
    let ws := splitAll geo inp cIdx w
    { ws with store := markDead ws.store pid }
  | none => w

/-- Line 304: `if(part.wander && Math.random() < 0.015) part.dead = true`
(the random is drawn only when the particle wanders). -/
def wanderStage (inp : Inputs) (w : World) (pid : ℕ) : World :=
  match w.store[pid]? with
  | none => w
  | some p2 =>
    if p2.wander then
      if inp.rnd w.k < 3/200 then
        { w with k := w.k + 1, store := markDead w.store pid }
      else { w with k := w.k + 1 }
    else w

/-- Line 307: mark the particle dead when it is more than 40px off-canvas. -/
def offCanvasStage (geo : Geo) (w : World) (pid : ℕ) : World :=
  match w.store[pid]? with
  | none => w
  | some p3 =>
    if p3.x < -40 ∨ geo.w + 40 < p3.x ∨ p3.y < -40 ∨ geo.h + 40 < p3.y then
      { w with store := markDead w.store pid }
    else w

/-- Lines 192–307: everything inside `if(part.type === 'compound' &&
part.leached)` — the contact scan + split, the (unreachable) Y block, the
wander death draw, and the off-canvas check, in source order. -/
def compoundInteract (geo : Geo) (inp : Inputs) (w : World) (pid : ℕ) : World :=
  match w.store[pid]? with
  | none => w
  | some p =>
    if p.ptype = PType.compound ∧ p.leached then
      offCanvasStage geo
        (wanderStage inp
          (yInteract geo inp (splitStage geo inp w pid p.x p.y) pid) pid) pid
    else w

/-! ## The per-particle loop of `stepSimulation` (lines 85–319) -/

/-- The simulation state between steps: grid, particle arena, the live id
list (`particles`), the tick-local `spawned` id list and the random counter. -/
structure SimState where
  cells : List Cell
  store : List Particle
  particles : List ℕ
  spawned : List ℕ
  k : ℕ
deriving Repr

/-- View of the interaction context inside a `SimState`. -/
def SimState.world (st : SimState) : World :=
  ⟨st.cells, st.store, st.spawned, st.k⟩

/-- Write an interaction context back. -/
def SimState.withWorld (st : SimState) (w : World) : SimState :=
  { st with cells := w.cells, store := w.store, spawned := w.spawned, k := w.k }

/-- Lines 309–318 exactly as placed in the script: INSIDE the particle loop
body, executed at the end of every loop iteration that is not cut short by the
TTL `continue` — append `spawned` (truncated to the 1200 cap), then filter
dead particles.  `allowed = Math.max(0, MAX_PARTICLES - particles.length)` is
ℕ-truncated subtraction here. -/
def iterEnd (st : SimState) : SimState :=
  let allowed : ℕ := 1200 - st.particles.length
  let appended :=
    if 1200 < st.particles.length + st.spawned.length then
      st.particles ++ st.spawned.take allowed
    else st.particles ++ st.spawned
  { st with particles := appended.filter (fun pid =>
      match st.store[pid]? with
      | some p => !p.dead
      | none => false) }

/-- One iteration of `for(let i=0;i<particles.length;i++)` at index `i`:
TTL update (a particle whose TTL reaches 0 is marked dead and the iteration
`continue`s, skipping even the append/filter), then the steering blocks, the
position update, the unleached transport block, the interaction block, and
the per-iteration append/filter. -/
def processIter (geo : Geo) (inp : Inputs) (st : SimState) (i : ℕ) : SimState :=
  match st.particles[i]? with
  | none => st
  | some pid =>
    match st.store[pid]? with
    | none => st
    | some p0 =>
      let t' : ℤ := match p0.ttl with | none => 300 | some t => t - 1
      if t' ≤ 0 then
        { st with store := st.store.set pid { p0 with ttl := some t', dead := true } }
      else
        let p1 := ySteerUpd geo inp st.cells { p0 with ttl := some t' }
        let p2 := compoundRetargetUpd geo inp st.cells p1
        let p3 := integrateUpd p2
        let p4 := unleachedUpd geo inp st.cells p3
        let st1 := { st with store := st.store.set pid p4 }
        let w := compoundInteract geo inp st1.world pid
        iterEnd (st1.withWorld w)

/-- The particle loop, with explicit fuel (the loop always terminates within
`max(initial length, 1200) + 1` iterations because the cap keeps
`particles.length ≤ max(initial length, 1200)` while `i` strictly increases;
`stepSimulation` passes more than that). -/
def stepLoop (geo : Geo) (inp : Inputs) : ℕ → SimState → ℕ → SimState
  | 0, st, _ => st
  | fuel+1, st, i =>
    if i < st.particles.length then
      stepLoop geo inp fuel (processIter geo inp st i) (i+1)
    else st

/-- `stepSimulation()`: the growth phase, then the particle loop with a fresh
tick-local `spawned` list. -/
def stepSimulation (geo : Geo) (inp : Inputs) (st : SimState) : SimState :=
  let gp := growthPass geo inp st.cells st.k
  let st1 := { st with cells := gp.1, k := gp.2, spawned := [] }
  stepLoop geo inp (st1.particles.length + 1201) st1 0

/-! ## Cluster seeding (script lines 546–587) -/

/-- `Math.max(0, Math.min(100, v))`. -/
def clamp100 (q : ℚ) : ℚ := max 0 (min 100 q)

/-- `targetCount = Math.max(3, Math.round((pct/100) * 45))`. -/
def seedTargetCount (inp : Inputs) : ℕ :=
  max 3 (jsRound (clamp100 inp.startAmount / 100 * 45)).toNat

/-- The in-place swap of the shuffle (`t=neigh[i]; neigh[i]=neigh[j];
neigh[j]=t`); for the in-range indices the script produces (`Math.random()` in
`[0,1)`) this is an ordinary swap. -/
def swapIdx (l : List α) (i j : ℕ) : List α :=
  match l[i]?, l[j]? with
  | some a, some b => (l.set i b).set j a
  | _, _ => l

/-- The Fisher–Yates loop of line 581, `i` descending, `j =
Math.floor(Math.random()*(i+1))`. -/
def fyGo (inp : Inputs) : List ℕ → List α → ℕ → List α × ℕ
  | [], l, k => (l, k)
  | i :: rest, l, k =>
    let j := (⌊inp.rnd k * (i + 1 : ℕ)⌋).toNat
    fyGo inp rest (swapIdx l i j) (k + 1)

/-- Shuffle a list the way line 581 does, consuming `l.length - 1` randoms. -/
def shuffleJS (inp : Inputs) (l : List α) (k : ℕ) : List α × ℕ :=
  fyGo inp (((List.range (l.length - 1)).map (· + 1)).reverse) l k

/-- Line 582–585: enqueue each (shuffled) neighbor coordinate that maps to a
valid unseen index, threading queue and seen-set in order. -/
def enqueueGo (cols rows : ℕ) : List (ℤ × ℤ) → List ℕ → List ℕ → List ℕ × List ℕ
  | [], q, seen => (q, seen)
  | (nx, ny) :: rest, q, seen =>
    let nidx := cellIndex cols rows nx ny
    if 0 ≤ nidx ∧ nidx.toNat ∉ seen then
      enqueueGo cols rows rest (q ++ [nidx.toNat]) (seen ++ [nidx.toNat])
    else enqueueGo cols rows rest q seen

/-- The seeding BFS (lines 564–586): dequeue; skip invalid or vessel-interior
sites; convert a healthy site (size `12 + Math.random()*10`); push the 8
neighbors in shuffled order, de-duplicated by the seen-set.  Queue entries are
naturals because the script only ever enqueues indices `>= 0`. -/
def seedLoop (geo : Geo) (inp : Inputs) :
    ℕ → List Cell → List ℕ → List ℕ → ℕ → ℕ → ℕ → List Cell × ℕ
  | 0, cells, _, _, _, _, k => (cells, k)
  | fuel+1, cells, q, seen, seeded, target, k =>
    match q with
    | [] => (cells, k)
    | idx :: qrest =>
      if seeded < target then
        match cells[idx]? with
        | none => seedLoop geo inp fuel cells qrest seen seeded target k
        | some c =>
          if isInVesselXY geo c.x c.y then
            seedLoop geo inp fuel cells qrest seen seeded target k
          else
            let conv := c.state == 0
            let cells1 :=
              if conv then cells.set idx { c with state := 1, size := 12 + inp.rnd k * 10 }
              else cells
            let seeded1 := if conv then seeded + 1 else seeded
            let k1 := if conv then k + 1 else k
            let neigh := neighborOffsets.map
              (fun od => (derivedIx c + od.1, derivedIy c + od.2))
            let sh := shuffleJS inp neigh k1
            let qs := enqueueGo (gridCols geo) (gridRows geo) sh.1 qrest seen
            seedLoop geo inp fuel cells1 qs.1 qs.2 seeded1 target sh.2
      else (cells, k)

/-- The start index of the BFS (lines 554–561): a point near vertical
mid-canvas, three lattice spacings inside tissue, rounded to the nearest
cell, with the fallback `Math.floor(cells.length/2)`. -/
def seedStartIdx (geo : Geo) (inp : Inputs) (cells : List Cell) (k : ℕ) : ℕ :=
  let yc := geo.h * (35/100 + inp.rnd k * (3/10))
  let bx := geo.boundaryX yc
  let xc := max spacing (bx - spacing * 3)
  let centerIx := jsRound ((xc - spacing/2) / spacing)
  let centerIy := jsRound ((yc - spacing/2) / spacing)
  let ci := cellIndex (gridCols geo) (gridRows geo) centerIx centerIy
  if 0 ≤ ci then ci.toNat else cells.length / 2

/-- Line 548: `for(const c of cells){ c.state = 0; c.size = 0; }`. -/
def seedClear (cells0 : List Cell) : List Cell :=
  cells0.map (fun c => { c with state := 0, size := 0 })

/-- `seedInitial()`: reset every cell to healthy, then run the BFS.  The fuel
`cols*rows + 2` dominates the real iteration count: every enqueue is a valid
index (`< cols*rows`) not yet in the seen-set, so the queue receives at most
`cols*rows + 1` entries in total. -/
def seedInitial (geo : Geo) (inp : Inputs) (cells0 : List Cell) (k : ℕ) :
    List Cell × ℕ :=
  let cells := seedClear cells0
  let target := seedTargetCount inp
  let s := seedStartIdx geo inp cells k
  seedLoop geo inp (gridCols geo * gridRows geo + 2) cells [s] [s] 0 target (k + 1)

/-! ## Dosing (`window.spawnDrugParticles`, script lines 347–389) -/

/-- The body of one pass of the dose loop (lines 353–387), returning the
updated `(store, particles, k)`. -/
def spawnOneDose (geo : Geo) (inp : Inputs) (cells : List Cell) (amount : ℚ)
    (store : List Particle) (particles : List ℕ) (k : ℕ) :
    List Particle × List ℕ × ℕ :=
  let y := inp.rnd k * geo.h
  let bX := geo.boundaryX y
  let x := bX + 4 + inp.rnd (k+1) * (geo.w - bX - 4)
  let wanderChance := 2/100 + inp.rnd (k+2) * (1/100)
  let wander := inp.rnd (k+3) < wanderChance
  let k4 := k + 4
  let targeted : Option (Particle × ℕ) :=
    if wander then none
    else
      let best := nearestTumorIdx geo cells x y
      if 0 ≤ best.1 then
        match cells[best.1.toNat]? with
        | some bestC =>
          let dirTo := normalized geo (bestC.x - x) (bestC.y - y)
          let speed := 16/5 * (1 + amount/80) * (19/20 + inp.rnd k4 * (1/5))
          some ({ blankSpawn with
            x := x, y := y, vx := dirTo.1 * speed, vy := dirTo.2 * speed
            leached := false, ptype := PType.compound
            targetIdx := some best.1.toNat, wander := false
            ttl := some 400, steerAggression := some (23/25) }, k4 + 1)
        | none => none
      else none
  match targeted with
  | some pk => (store ++ [pk.1], particles ++ [store.length], pk.2)
  | none =>
    let ang := inp.rnd k4 * geo.piQ * 2
    let sp := 16/5 * (3/5) * (3/5 + inp.rnd (k4+1) * (4/5))
    let p : Particle := { blankSpawn with
      x := x, y := y, vx := geo.cosf ang * sp, vy := geo.sinf ang * sp
      leached := false, ptype := PType.compound, wander := true
      ttl := some 120 }
    (store ++ [p], particles ++ [store.length], k4 + 2)

/-- The dose loop, `toSpawn` passes. -/
def spawnLoop (geo : Geo) (inp : Inputs) (cells : List Cell) (amount : ℚ) :
    ℕ → List Particle × List ℕ × ℕ → List Particle × List ℕ × ℕ
  | 0, acc => acc
  | n+1, acc =>
    let acc1 := spawnOneDose geo inp cells amount acc.1 acc.2.1 acc.2.2
    spawnLoop geo inp cells amount n acc1

/-- `window.spawnDrugParticles(dose)`: `amount = Number(dose)` — `none` models
a non-number input (JS `NaN`, falsy).  A falsy or non-positive amount returns
immediately; otherwise `Math.max(1, Math.round(amount))` compounds are pushed. -/
def spawnDrugParticles (geo : Geo) (inp : Inputs) (cells : List Cell)
    (amount? : Option ℚ) (store : List Particle) (particles : List ℕ) (k : ℕ) :
    List Particle × List ℕ × ℕ :=
  match amount? with
  | none => (store, particles, k)
  | some a =>
    if a ≤ 0 then (store, particles, k)
    else spawnLoop geo inp cells a (max 1 (jsRound a).toNat) (store, particles, k)

/-! ## Reachable simulation states -/

/-- `start()` (lines 603–610): `initCells(); seedInitial(); particles = []`.
The arena is cleared with the particle list since no reference survives. -/
def startOp (geo : Geo) (inp : Inputs) (st : SimState) : SimState :=
  let seeded := seedInitial geo inp (initCells geo) st.k
  { cells := seeded.1, store := [], particles := [], spawned := [], k := seeded.2 }

/-- `giveDose()`/`spawnDrugParticles` as a state operation. -/
def doseOp (geo : Geo) (inp : Inputs) (amount? : Option ℚ) (st : SimState) :
    SimState :=
  let r := spawnDrugParticles geo inp st.cells amount? st.store st.particles st.k
  { st with store := r.1, particles := r.2.1, k := r.2.2 }

/-- The states the simulation can be in: the page-load state (`initCells()`,
no particles), then any interleaving of `start`, dose and tick calls, each
with its own slider values and random stream (`stop()` and `draw()` do not
mutate the simulation state). -/
inductive Reachable (geo : Geo) : SimState → Prop where
  | init : Reachable geo ⟨initCells geo, [], [], [], 0⟩
  | startStep (inp : Inputs) (st : SimState) (h : Reachable geo st) :
      Reachable geo (startOp geo inp st)
  | doseStep (inp : Inputs) (amount? : Option ℚ) (st : SimState)
      (h : Reachable geo st) : Reachable geo (doseOp geo inp amount? st)
  | tickStep (inp : Inputs) (st : SimState) (h : Reachable geo st) :
      Reachable geo (stepSimulation geo inp st)

/-! ## Concrete witness environments

Exact-rational instantiations used by witnesses and counterexamples: a flat
vessel boundary far to the right (`x = 1000`, so the 3-column canvas is all
tissue), or at `x = 20` for dosing, `ratHyp` for `Math.hypot` (exact on the
axis-aligned distances these traces compare), and the constant random stream
`1/2`. -/

def geoW : Geo where
  w := 54
  h := 54
  boundaryX := fun _ => 1000
  tangentD := fun _ => 0
  hyp := ratHyp
  cosf := fun _ => 1
  sinf := fun _ => 0
  piQ := 157/50

def geoW4 : Geo := { geoW with w := 72 }

def geoDose : Geo := { geoW with boundaryX := fun _ => 20 }

def inpHalf : Inputs where
  rnd := fun _ => 1/2
  growthRate := 0
  drugAmount := 0
  startAmount := 10

/-- A tumor cell at a given center and size. -/
def tum (x y s : ℚ) : Cell := { x := x, y := y, state := 1, size := s }

/-! ## C7: the growth probability formula -/

/-- Claim C7: with `g = growthRateInput / 15000` and
`prob = 1 - (1-g)^n`: for `growthRateInput = 0` the probability is `0` for
every neighbor count, and for fixed positive input (with `g < 1`, i.e. input
below 15000) it is strictly increasing in the neighbor count and bounded in
`[0, 1)`. -/
theorem C7_growth_prob_formula :
    (∀ n : ℕ, growthProb 0 n = 0) ∧
    (∀ rate : ℚ, 0 < rate → rate < 15000 →
      (∀ n m : ℕ, n < m → growthProb rate n < growthProb rate m) ∧
      (∀ n : ℕ, 0 ≤ growthProb rate n ∧ growthProb rate n < 1)) := by
  constructor
  · intro n
    simp [growthProb, growthG]
  · intro rate h0 h15
    have hg0 : 0 < growthG rate := by
      have : (0:ℚ) < 15000 := by norm_num
      exact div_pos h0 this
    have hg1 : growthG rate < 1 := by
      unfold growthG
      rw [div_lt_one (by norm_num : (0:ℚ) < 15000)]
      linarith
    have h1g0 : 0 < 1 - growthG rate := by linarith
    have h1g1 : 1 - growthG rate < 1 := by linarith
    refine ⟨fun n m hnm => ?_, fun n => ?_⟩
    · have h := pow_lt_pow_right_of_lt_one₀ h1g0 h1g1 hnm
      unfold growthProb
      linarith
    · have hpow0 : 0 < (1 - growthG rate)^n := pow_pos h1g0 n
      have hpow1 : (1 - growthG rate)^n ≤ 1 := pow_le_one₀ (le_of_lt h1g0) (le_of_lt h1g1)
      unfold growthProb
      constructor <;> linarith

/-! ## C10: the zero-vector fallback of `normalized` -/

/-- Claim C10, counterexample: on the zero vector `normalized` returns the
ZERO vector `(0,0)` (since `0/1 = 0`), not a unit vector such as `(0,1)` as
the spec requires; `(0,0)` has squared norm `0 ≠ 1`. -/
theorem C10_zero_vector_cex :
    normalized geoW 0 0 = (0, 0) ∧
    ¬ ((normalized geoW 0 0).1 ^ 2 + (normalized geoW 0 0).2 ^ 2 = 1) := by
  constructor
  · with_unfolding_all rfl
  · with_unfolding_all decide

/-- Claim C10 as amended: `normalized` is total and performs no division by
zero — the divisor `m = hypot || 1` is never `0` — but on the zero vector
(where `Math.hypot` returns `0`) it returns the zero vector `(0,0)`, not a
unit vector. -/
theorem C10_normalized_defensive :
    ∀ (geo : Geo) (vx vy : ℚ),
      normalizedDenom geo vx vy ≠ 0 ∧
      normalized geo vx vy =
        (vx / normalizedDenom geo vx vy, vy / normalizedDenom geo vx vy) ∧
      (geo.hyp 0 0 = 0 → normalized geo 0 0 = (0, 0)) := by
  intro geo vx vy
  refine ⟨?_, rfl, ?_⟩
  · unfold normalizedDenom
    split
    · norm_num
    · assumption
  · intro h
    unfold normalized
    rw [h]
    norm_num

/-! ## Concrete traces

`stC1`: a live cytotoxic (`Y`) particle in contact range of its live tumor
target (claim C1's trigger).  `stSplit`: a leached compound in contact with a
tumor cell on a 4x3 grid, with a second tumor two columns away (so the split's
nearest-tumor fallback fires) and eight almost-expired filler particles, a
state on which one whole tick terminates quickly enough to evaluate in the
kernel.  All distances the trace compares are axis-aligned, so `ratHyp` agrees
exactly with `Math.hypot`. -/

def pY1 : Particle := { blankSpawn with
  x := 42
  y := 27
  ptype := PType.Y
  leached := true
  targetIdx := some 4
  ttl := some 50 }

def stC1 : SimState where
  cells := (initCells geoW).set 4 (tum 27 27 10)
  store := [pY1]
  particles := [0]
  spawned := []
  k := 0

def pComp : Particle := { blankSpawn with
  x := 27
  y := 27
  ptype := PType.compound
  leached := true
  targetIdx := some 5
  ttl := some 400
  steerAggression := some (23/25) }

def dFill : Particle := { blankSpawn with
  x := 0
  y := 0
  ptype := PType.Y
  leached := true
  idle := true
  ttl := some 1 }

def stSplit : SimState where
  cells := ((initCells geoW4).set 5 (tum 27 27 10)).set 7 (tum 63 27 10)
  store := [pComp, dFill, dFill, dFill, dFill, dFill, dFill, dFill, dFill]
  particles := [0,1,2,3,4,5,6,7,8]
  spawned := []
  k := 0

/-- State of the split trace after the growth pass and 0 particle-loop iterations. -/
def trS0 : SimState := { cells := [{ x := 9, y := 9, state := 0, size := 0 }, { x := 27, y := 9, state := 0, size := 0 }, { x := 45, y := 9, state := 0, size := 0 }, { x := 63, y := 9, state := 0, size := 0 }, { x := 9, y := 27, state := 0, size := 0 }, { x := 27, y := 27, state := 1, size := 10 }, { x := 45, y := 27, state := 0, size := 0 }, { x := 63, y := 27, state := 1, size := 10 }, { x := 9, y := 45, state := 0, size := 0 }, { x := 27, y := 45, state := 0, size := 0 }, { x := 45, y := 45, state := 0, size := 0 }, { x := 63, y := 45, state := 0, size := 0 }], store := [{ x := 27, y := 27, vx := 0, vy := 0, ptype := PType.compound, leached := true, targetIdx := some 5, parentIdx := none, idle := false, wander := false, ttl := some 400, dead := false, steerAggression := some ((23 : Rat)/25) }, { x := 0, y := 0, vx := 0, vy := 0, ptype := PType.Y, leached := true, targetIdx := none, parentIdx := none, idle := true, wander := false, ttl := some 1, dead := false, steerAggression := none }, { x := 0, y := 0, vx := 0, vy := 0, ptype := PType.Y, leached := true, targetIdx := none, parentIdx := none, idle := true, wander := false, ttl := some 1, dead := false, steerAggression := none }, { x := 0, y := 0, vx := 0, vy := 0, ptype := PType.Y, leached := true, targetIdx := none, parentIdx := none, idle := true, wander := false, ttl := some 1, dead := false, steerAggression := none }, { x := 0, y := 0, vx := 0, vy := 0, ptype := PType.Y, leached := true, targetIdx := none, parentIdx := none, idle := true, wander := false, ttl := some 1, dead := false, steerAggression := none }, { x := 0, y := 0, vx := 0, vy := 0, ptype := PType.Y, leached := true, targetIdx := none, parentIdx := none, idle := true, wander := false, ttl := some 1, dead := false, steerAggression := none }, { x := 0, y := 0, vx := 0, vy := 0, ptype := PType.Y, leached := true, targetIdx := none, parentIdx := none, idle := true, wander := false, ttl := some 1, dead := false, steerAggression := none }, { x := 0, y := 0, vx := 0, vy := 0, ptype := PType.Y, leached := true, targetIdx := none, parentIdx := none, idle := true, wander := false, ttl := some 1, dead := false, steerAggression := none }, { x := 0, y := 0, vx := 0, vy := 0, ptype := PType.Y, leached := true, targetIdx := none, parentIdx := none, idle := true, wander := false, ttl := some 1, dead := false, steerAggression := none }], particles := [0, 1, 2, 3, 4, 5, 6, 7, 8], spawned := [], k := 10 }

/-- State of the split trace after the growth pass and 1 particle-loop iterations. -/
def trS1 : SimState := { cells := [{ x := 9, y := 9, state := 0, size := 0 }, { x := 27, y := 9, state := 0, size := 0 }, { x := 45, y := 9, state := 0, size := 0 }, { x := 63, y := 9, state := 0, size := 0 }, { x := 9, y := 27, state := 0, size := 0 }, { x := 27, y := 27, state := 0, size := 0 }, { x := 45, y := 27, state := 0, size := 0 }, { x := 63, y := 27, state := 1, size := 10 }, { x := 9, y := 45, state := 0, size := 0 }, { x := 27, y := 45, state := 0, size := 0 }, { x := 45, y := 45, state := 0, size := 0 }, { x := 63, y := 45, state := 0, size := 0 }], store := [{ x := 27, y := 27, vx := 0, vy := 0, ptype := PType.compound, leached := true, targetIdx := some 5, parentIdx := none, idle := false, wander := false, ttl := some 399, dead := true, steerAggression := some ((23 : Rat)/25) }, { x := 0, y := 0, vx := 0, vy := 0, ptype := PType.Y, leached := true, targetIdx := none, parentIdx := none, idle := true, wander := false, ttl := some 1, dead := false, steerAggression := none }, { x := 0, y := 0, vx := 0, vy := 0, ptype := PType.Y, leached := true, targetIdx := none, parentIdx := none, idle := true, wander := false, ttl := some 1, dead := false, steerAggression := none }, { x := 0, y := 0, vx := 0, vy := 0, ptype := PType.Y, leached := true, targetIdx := none, parentIdx := none, idle := true, wander := false, ttl := some 1, dead := false, steerAggression := none }, { x := 0, y := 0, vx := 0, vy := 0, ptype := PType.Y, leached := true, targetIdx := none, parentIdx := none, idle := true, wander := false, ttl := some 1, dead := false, steerAggression := none }, { x := 0, y := 0, vx := 0, vy := 0, ptype := PType.Y, leached := true, targetIdx := none, parentIdx := none, idle := true, wander := false, ttl := some 1, dead := false, steerAggression := none }, { x := 0, y := 0, vx := 0, vy := 0, ptype := PType.Y, leached := true, targetIdx := none, parentIdx := none, idle := true, wander := false, ttl := some 1, dead := false, steerAggression := none }, { x := 0, y := 0, vx := 0, vy := 0, ptype := PType.Y, leached := true, targetIdx := none, parentIdx := none, idle := true, wander := false, ttl := some 1, dead := false, steerAggression := none }, { x := 0, y := 0, vx := 0, vy := 0, ptype := PType.Y, leached := true, targetIdx := none, parentIdx := none, idle := true, wander := false, ttl := some 1, dead := false, steerAggression := none }, { x := 27, y := 27, vx := (11 : Rat)/10, vy := 0, ptype := PType.Y, leached := true, targetIdx := some 7, parentIdx := some 5, idle := false, wander := false, ttl := some 220, dead := false, steerAggression := none }, { x := 27, y := 27, vx := (11 : Rat)/10, vy := 0, ptype := PType.Y, leached := true, targetIdx := some 7, parentIdx := some 5, idle := false, wander := false, ttl := some 220, dead := false, steerAggression := none }, { x := 27, y := 27, vx := (11 : Rat)/10, vy := 0, ptype := PType.Y, leached := true, targetIdx := some 7, parentIdx := some 5, idle := false, wander := false, ttl := some 220, dead := false, steerAggression := none }, { x := 27, y := 27, vx := (11 : Rat)/10, vy := 0, ptype := PType.Y, leached := true, targetIdx := some 7, parentIdx := some 5, idle := false, wander := false, ttl := some 220, dead := false, steerAggression := none }], particles := [1, 2, 3, 4, 5, 6, 7, 8, 9, 10, 11, 12], spawned := [9, 10, 11, 12], k := 22 }

/-- State of the split trace after the growth pass and 2 particle-loop iterations. -/
def trS2 : SimState := { cells := [{ x := 9, y := 9, state := 0, size := 0 }, { x := 27, y := 9, state := 0, size := 0 }, { x := 45, y := 9, state := 0, size := 0 }, { x := 63, y := 9, state := 0, size := 0 }, { x := 9, y := 27, state := 0, size := 0 }, { x := 27, y := 27, state := 0, size := 0 }, { x := 45, y := 27, state := 0, size := 0 }, { x := 63, y := 27, state := 1, size := 10 }, { x := 9, y := 45, state := 0, size := 0 }, { x := 27, y := 45, state := 0, size := 0 }, { x := 45, y := 45, state := 0, size := 0 }, { x := 63, y := 45, state := 0, size := 0 }], store := [{ x := 27, y := 27, vx := 0, vy := 0, ptype := PType.compound, leached := true, targetIdx := some 5, parentIdx := none, idle := false, wander := false, ttl := some 399, dead := true, steerAggression := some ((23 : Rat)/25) }, { x := 0, y := 0, vx := 0, vy := 0, ptype := PType.Y, leached := true, targetIdx := none, parentIdx := none, idle := true, wander := false, ttl := some 1, dead := false, steerAggression := none }, { x := 0, y := 0, vx := 0, vy := 0, ptype := PType.Y, leached := true, targetIdx := none, parentIdx := none, idle := true, wander := false, ttl := some 0, dead := true, steerAggression := none }, { x := 0, y := 0, vx := 0, vy := 0, ptype := PType.Y, leached := true, targetIdx := none, parentIdx := none, idle := true, wander := false, ttl := some 1, dead := false, steerAggression := none }, { x := 0, y := 0, vx := 0, vy := 0, ptype := PType.Y, leached := true, targetIdx := none, parentIdx := none, idle := true, wander := false, ttl := some 1, dead := false, steerAggression := none }, { x := 0, y := 0, vx := 0, vy := 0, ptype := PType.Y, leached := true, targetIdx := none, parentIdx := none, idle := true, wander := false, ttl := some 1, dead := false, steerAggression := none }, { x := 0, y := 0, vx := 0, vy := 0, ptype := PType.Y, leached := true, targetIdx := none, parentIdx := none, idle := true, wander := false, ttl := some 1, dead := false, steerAggression := none }, { x := 0, y := 0, vx := 0, vy := 0, ptype := PType.Y, leached := true, targetIdx := none, parentIdx := none, idle := true, wander := false, ttl := some 1, dead := false, steerAggression := none }, { x := 0, y := 0, vx := 0, vy := 0, ptype := PType.Y, leached := true, targetIdx := none, parentIdx := none, idle := true, wander := false, ttl := some 1, dead := false, steerAggression := none }, { x := 27, y := 27, vx := (11 : Rat)/10, vy := 0, ptype := PType.Y, leached := true, targetIdx := some 7, parentIdx := some 5, idle := false, wander := false, ttl := some 220, dead := false, steerAggression := none }, { x := 27, y := 27, vx := (11 : Rat)/10, vy := 0, ptype := PType.Y, leached := true, targetIdx := some 7, parentIdx := some 5, idle := false, wander := false, ttl := some 220, dead := false, steerAggression := none }, { x := 27, y := 27, vx := (11 : Rat)/10, vy := 0, ptype := PType.Y, leached := true, targetIdx := some 7, parentIdx := some 5, idle := false, wander := false, ttl := some 220, dead := false, steerAggression := none }, { x := 27, y := 27, vx := (11 : Rat)/10, vy := 0, ptype := PType.Y, leached := true, targetIdx := some 7, parentIdx := some 5, idle := false, wander := false, ttl := some 220, dead := false, steerAggression := none }], particles := [1, 2, 3, 4, 5, 6, 7, 8, 9, 10, 11, 12], spawned := [9, 10, 11, 12], k := 22 }

/-- State of the split trace after the growth pass and 3 particle-loop iterations. -/
def trS3 : SimState := { cells := [{ x := 9, y := 9, state := 0, size := 0 }, { x := 27, y := 9, state := 0, size := 0 }, { x := 45, y := 9, state := 0, size := 0 }, { x := 63, y := 9, state := 0, size := 0 }, { x := 9, y := 27, state := 0, size := 0 }, { x := 27, y := 27, state := 0, size := 0 }, { x := 45, y := 27, state := 0, size := 0 }, { x := 63, y := 27, state := 1, size := 10 }, { x := 9, y := 45, state := 0, size := 0 }, { x := 27, y := 45, state := 0, size := 0 }, { x := 45, y := 45, state := 0, size := 0 }, { x := 63, y := 45, state := 0, size := 0 }], store := [{ x := 27, y := 27, vx := 0, vy := 0, ptype := PType.compound, leached := true, targetIdx := some 5, parentIdx := none, idle := false, wander := false, ttl := some 399, dead := true, steerAggression := some ((23 : Rat)/25) }, { x := 0, y := 0, vx := 0, vy := 0, ptype := PType.Y, leached := true, targetIdx := none, parentIdx := none, idle := true, wander := false, ttl := some 1, dead := false, steerAggression := none }, { x := 0, y := 0, vx := 0, vy := 0, ptype := PType.Y, leached := true, targetIdx := none, parentIdx := none, idle := true, wander := false, ttl := some 0, dead := true, steerAggression := none }, { x := 0, y := 0, vx := 0, vy := 0, ptype := PType.Y, leached := true, targetIdx := none, parentIdx := none, idle := true, wander := false, ttl := some 0, dead := true, steerAggression := none }, { x := 0, y := 0, vx := 0, vy := 0, ptype := PType.Y, leached := true, targetIdx := none, parentIdx := none, idle := true, wander := false, ttl := some 1, dead := false, steerAggression := none }, { x := 0, y := 0, vx := 0, vy := 0, ptype := PType.Y, leached := true, targetIdx := none, parentIdx := none, idle := true, wander := false, ttl := some 1, dead := false, steerAggression := none }, { x := 0, y := 0, vx := 0, vy := 0, ptype := PType.Y, leached := true, targetIdx := none, parentIdx := none, idle := true, wander := false, ttl := some 1, dead := false, steerAggression := none }, { x := 0, y := 0, vx := 0, vy := 0, ptype := PType.Y, leached := true, targetIdx := none, parentIdx := none, idle := true, wander := false, ttl := some 1, dead := false, steerAggression := none }, { x := 0, y := 0, vx := 0, vy := 0, ptype := PType.Y, leached := true, targetIdx := none, parentIdx := none, idle := true, wander := false, ttl := some 1, dead := false, steerAggression := none }, { x := 27, y := 27, vx := (11 : Rat)/10, vy := 0, ptype := PType.Y, leached := true, targetIdx := some 7, parentIdx := some 5, idle := false, wander := false, ttl := some 220, dead := false, steerAggression := none }, { x := 27, y := 27, vx := (11 : Rat)/10, vy := 0, ptype := PType.Y, leached := true, targetIdx := some 7, parentIdx := some 5, idle := false, wander := false, ttl := some 220, dead := false, steerAggression := none }, { x := 27, y := 27, vx := (11 : Rat)/10, vy := 0, ptype := PType.Y, leached := true, targetIdx := some 7, parentIdx := some 5, idle := false, wander := false, ttl := some 220, dead := false, steerAggression := none }, { x := 27, y := 27, vx := (11 : Rat)/10, vy := 0, ptype := PType.Y, leached := true, targetIdx := some 7, parentIdx := some 5, idle := false, wander := false, ttl := some 220, dead := false, steerAggression := none }], particles := [1, 2, 3, 4, 5, 6, 7, 8, 9, 10, 11, 12], spawned := [9, 10, 11, 12], k := 22 }

/-- State of the split trace after the growth pass and 4 particle-loop iterations. -/
def trS4 : SimState := { cells := [{ x := 9, y := 9, state := 0, size := 0 }, { x := 27, y := 9, state := 0, size := 0 }, { x := 45, y := 9, state := 0, size := 0 }, { x := 63, y := 9, state := 0, size := 0 }, { x := 9, y := 27, state := 0, size := 0 }, { x := 27, y := 27, state := 0, size := 0 }, { x := 45, y := 27, state := 0, size := 0 }, { x := 63, y := 27, state := 1, size := 10 }, { x := 9, y := 45, state := 0, size := 0 }, { x := 27, y := 45, state := 0, size := 0 }, { x := 45, y := 45, state := 0, size := 0 }, { x := 63, y := 45, state := 0, size := 0 }], store := [{ x := 27, y := 27, vx := 0, vy := 0, ptype := PType.compound, leached := true, targetIdx := some 5, parentIdx := none, idle := false, wander := false, ttl := some 399, dead := true, steerAggression := some ((23 : Rat)/25) }, { x := 0, y := 0, vx := 0, vy := 0, ptype := PType.Y, leached := true, targetIdx := none, parentIdx := none, idle := true, wander := false, ttl := some 1, dead := false, steerAggression := none }, { x := 0, y := 0, vx := 0, vy := 0, ptype := PType.Y, leached := true, targetIdx := none, parentIdx := none, idle := true, wander := false, ttl := some 0, dead := true, steerAggression := none }, { x := 0, y := 0, vx := 0, vy := 0, ptype := PType.Y, leached := true, targetIdx := none, parentIdx := none, idle := true, wander := false, ttl := some 0, dead := true, steerAggression := none }, { x := 0, y := 0, vx := 0, vy := 0, ptype := PType.Y, leached := true, targetIdx := none, parentIdx := none, idle := true, wander := false, ttl := some 0, dead := true, steerAggression := none }, { x := 0, y := 0, vx := 0, vy := 0, ptype := PType.Y, leached := true, targetIdx := none, parentIdx := none, idle := true, wander := false, ttl := some 1, dead := false, steerAggression := none }, { x := 0, y := 0, vx := 0, vy := 0, ptype := PType.Y, leached := true, targetIdx := none, parentIdx := none, idle := true, wander := false, ttl := some 1, dead := false, steerAggression := none }, { x := 0, y := 0, vx := 0, vy := 0, ptype := PType.Y, leached := true, targetIdx := none, parentIdx := none, idle := true, wander := false, ttl := some 1, dead := false, steerAggression := none }, { x := 0, y := 0, vx := 0, vy := 0, ptype := PType.Y, leached := true, targetIdx := none, parentIdx := none, idle := true, wander := false, ttl := some 1, dead := false, steerAggression := none }, { x := 27, y := 27, vx := (11 : Rat)/10, vy := 0, ptype := PType.Y, leached := true, targetIdx := some 7, parentIdx := some 5, idle := false, wander := false, ttl := some 220, dead := false, steerAggression := none }, { x := 27, y := 27, vx := (11 : Rat)/10, vy := 0, ptype := PType.Y, leached := true, targetIdx := some 7, parentIdx := some 5, idle := false, wander := false, ttl := some 220, dead := false, steerAggression := none }, { x := 27, y := 27, vx := (11 : Rat)/10, vy := 0, ptype := PType.Y, leached := true, targetIdx := some 7, parentIdx := some 5, idle := false, wander := false, ttl := some 220, dead := false, steerAggression := none }, { x := 27, y := 27, vx := (11 : Rat)/10, vy := 0, ptype := PType.Y, leached := true, targetIdx := some 7, parentIdx := some 5, idle := false, wander := false, ttl := some 220, dead := false, steerAggression := none }], particles := [1, 2, 3, 4, 5, 6, 7, 8, 9, 10, 11, 12], spawned := [9, 10, 11, 12], k := 22 }

/-- State of the split trace after the growth pass and 5 particle-loop iterations. -/
def trS5 : SimState := { cells := [{ x := 9, y := 9, state := 0, size := 0 }, { x := 27, y := 9, state := 0, size := 0 }, { x := 45, y := 9, state := 0, size := 0 }, { x := 63, y := 9, state := 0, size := 0 }, { x := 9, y := 27, state := 0, size := 0 }, { x := 27, y := 27, state := 0, size := 0 }, { x := 45, y := 27, state := 0, size := 0 }, { x := 63, y := 27, state := 1, size := 10 }, { x := 9, y := 45, state := 0, size := 0 }, { x := 27, y := 45, state := 0, size := 0 }, { x := 45, y := 45, state := 0, size := 0 }, { x := 63, y := 45, state := 0, size := 0 }], store := [{ x := 27, y := 27, vx := 0, vy := 0, ptype := PType.compound, leached := true, targetIdx := some 5, parentIdx := none, idle := false, wander := false, ttl := some 399, dead := true, steerAggression := some ((23 : Rat)/25) }, { x := 0, y := 0, vx := 0, vy := 0, ptype := PType.Y, leached := true, targetIdx := none, parentIdx := none, idle := true, wander := false, ttl := some 1, dead := false, steerAggression := none }, { x := 0, y := 0, vx := 0, vy := 0, ptype := PType.Y, leached := true, targetIdx := none, parentIdx := none, idle := true, wander := false, ttl := some 0, dead := true, steerAggression := none }, { x := 0, y := 0, vx := 0, vy := 0, ptype := PType.Y, leached := true, targetIdx := none, parentIdx := none, idle := true, wander := false, ttl := some 0, dead := true, steerAggression := none }, { x := 0, y := 0, vx := 0, vy := 0, ptype := PType.Y, leached := true, targetIdx := none, parentIdx := none, idle := true, wander := false, ttl := some 0, dead := true, steerAggression := none }, { x := 0, y := 0, vx := 0, vy := 0, ptype := PType.Y, leached := true, targetIdx := none, parentIdx := none, idle := true, wander := false, ttl := some 0, dead := true, steerAggression := none }, { x := 0, y := 0, vx := 0, vy := 0, ptype := PType.Y, leached := true, targetIdx := none, parentIdx := none, idle := true, wander := false, ttl := some 1, dead := false, steerAggression := none }, { x := 0, y := 0, vx := 0, vy := 0, ptype := PType.Y, leached := true, targetIdx := none, parentIdx := none, idle := true, wander := false, ttl := some 1, dead := false, steerAggression := none }, { x := 0, y := 0, vx := 0, vy := 0, ptype := PType.Y, leached := true, targetIdx := none, parentIdx := none, idle := true, wander := false, ttl := some 1, dead := false, steerAggression := none }, { x := 27, y := 27, vx := (11 : Rat)/10, vy := 0, ptype := PType.Y, leached := true, targetIdx := some 7, parentIdx := some 5, idle := false, wander := false, ttl := some 220, dead := false, steerAggression := none }, { x := 27, y := 27, vx := (11 : Rat)/10, vy := 0, ptype := PType.Y, leached := true, targetIdx := some 7, parentIdx := some 5, idle := false, wander := false, ttl := some 220, dead := false, steerAggression := none }, { x := 27, y := 27, vx := (11 : Rat)/10, vy := 0, ptype := PType.Y, leached := true, targetIdx := some 7, parentIdx := some 5, idle := false, wander := false, ttl := some 220, dead := false, steerAggression := none }, { x := 27, y := 27, vx := (11 : Rat)/10, vy := 0, ptype := PType.Y, leached := true, targetIdx := some 7, parentIdx := some 5, idle := false, wander := false, ttl := some 220, dead := false, steerAggression := none }], particles := [1, 2, 3, 4, 5, 6, 7, 8, 9, 10, 11, 12], spawned := [9, 10, 11, 12], k := 22 }

/-- State of the split trace after the growth pass and 6 particle-loop iterations. -/
def trS6 : SimState := { cells := [{ x := 9, y := 9, state := 0, size := 0 }, { x := 27, y := 9, state := 0, size := 0 }, { x := 45, y := 9, state := 0, size := 0 }, { x := 63, y := 9, state := 0, size := 0 }, { x := 9, y := 27, state := 0, size := 0 }, { x := 27, y := 27, state := 0, size := 0 }, { x := 45, y := 27, state := 0, size := 0 }, { x := 63, y := 27, state := 1, size := 10 }, { x := 9, y := 45, state := 0, size := 0 }, { x := 27, y := 45, state := 0, size := 0 }, { x := 45, y := 45, state := 0, size := 0 }, { x := 63, y := 45, state := 0, size := 0 }], store := [{ x := 27, y := 27, vx := 0, vy := 0, ptype := PType.compound, leached := true, targetIdx := some 5, parentIdx := none, idle := false, wander := false, ttl := some 399, dead := true, steerAggression := some ((23 : Rat)/25) }, { x := 0, y := 0, vx := 0, vy := 0, ptype := PType.Y, leached := true, targetIdx := none, parentIdx := none, idle := true, wander := false, ttl := some 1, dead := false, steerAggression := none }, { x := 0, y := 0, vx := 0, vy := 0, ptype := PType.Y, leached := true, targetIdx := none, parentIdx := none, idle := true, wander := false, ttl := some 0, dead := true, steerAggression := none }, { x := 0, y := 0, vx := 0, vy := 0, ptype := PType.Y, leached := true, targetIdx := none, parentIdx := none, idle := true, wander := false, ttl := some 0, dead := true, steerAggression := none }, { x := 0, y := 0, vx := 0, vy := 0, ptype := PType.Y, leached := true, targetIdx := none, parentIdx := none, idle := true, wander := false, ttl := some 0, dead := true, steerAggression := none }, { x := 0, y := 0, vx := 0, vy := 0, ptype := PType.Y, leached := true, targetIdx := none, parentIdx := none, idle := true, wander := false, ttl := some 0, dead := true, steerAggression := none }, { x := 0, y := 0, vx := 0, vy := 0, ptype := PType.Y, leached := true, targetIdx := none, parentIdx := none, idle := true, wander := false, ttl := some 0, dead := true, steerAggression := none }, { x := 0, y := 0, vx := 0, vy := 0, ptype := PType.Y, leached := true, targetIdx := none, parentIdx := none, idle := true, wander := false, ttl := some 1, dead := false, steerAggression := none }, { x := 0, y := 0, vx := 0, vy := 0, ptype := PType.Y, leached := true, targetIdx := none, parentIdx := none, idle := true, wander := false, ttl := some 1, dead := false, steerAggression := none }, { x := 27, y := 27, vx := (11 : Rat)/10, vy := 0, ptype := PType.Y, leached := true, targetIdx := some 7, parentIdx := some 5, idle := false, wander := false, ttl := some 220, dead := false, steerAggression := none }, { x := 27, y := 27, vx := (11 : Rat)/10, vy := 0, ptype := PType.Y, leached := true, targetIdx := some 7, parentIdx := some 5, idle := false, wander := false, ttl := some 220, dead := false, steerAggression := none }, { x := 27, y := 27, vx := (11 : Rat)/10, vy := 0, ptype := PType.Y, leached := true, targetIdx := some 7, parentIdx := some 5, idle := false, wander := false, ttl := some 220, dead := false, steerAggression := none }, { x := 27, y := 27, vx := (11 : Rat)/10, vy := 0, ptype := PType.Y, leached := true, targetIdx := some 7, parentIdx := some 5, idle := false, wander := false, ttl := some 220, dead := false, steerAggression := none }], particles := [1, 2, 3, 4, 5, 6, 7, 8, 9, 10, 11, 12], spawned := [9, 10, 11, 12], k := 22 }

/-- State of the split trace after the growth pass and 7 particle-loop iterations. -/
def trS7 : SimState := { cells := [{ x := 9, y := 9, state := 0, size := 0 }, { x := 27, y := 9, state := 0, size := 0 }, { x := 45, y := 9, state := 0, size := 0 }, { x := 63, y := 9, state := 0, size := 0 }, { x := 9, y := 27, state := 0, size := 0 }, { x := 27, y := 27, state := 0, size := 0 }, { x := 45, y := 27, state := 0, size := 0 }, { x := 63, y := 27, state := 1, size := 10 }, { x := 9, y := 45, state := 0, size := 0 }, { x := 27, y := 45, state := 0, size := 0 }, { x := 45, y := 45, state := 0, size := 0 }, { x := 63, y := 45, state := 0, size := 0 }], store := [{ x := 27, y := 27, vx := 0, vy := 0, ptype := PType.compound, leached := true, targetIdx := some 5, parentIdx := none, idle := false, wander := false, ttl := some 399, dead := true, steerAggression := some ((23 : Rat)/25) }, { x := 0, y := 0, vx := 0, vy := 0, ptype := PType.Y, leached := true, targetIdx := none, parentIdx := none, idle := true, wander := false, ttl := some 1, dead := false, steerAggression := none }, { x := 0, y := 0, vx := 0, vy := 0, ptype := PType.Y, leached := true, targetIdx := none, parentIdx := none, idle := true, wander := false, ttl := some 0, dead := true, steerAggression := none }, { x := 0, y := 0, vx := 0, vy := 0, ptype := PType.Y, leached := true, targetIdx := none, parentIdx := none, idle := true, wander := false, ttl := some 0, dead := true, steerAggression := none }, { x := 0, y := 0, vx := 0, vy := 0, ptype := PType.Y, leached := true, targetIdx := none, parentIdx := none, idle := true, wander := false, ttl := some 0, dead := true, steerAggression := none }, { x := 0, y := 0, vx := 0, vy := 0, ptype := PType.Y, leached := true, targetIdx := none, parentIdx := none, idle := true, wander := false, ttl := some 0, dead := true, steerAggression := none }, { x := 0, y := 0, vx := 0, vy := 0, ptype := PType.Y, leached := true, targetIdx := none, parentIdx := none, idle := true, wander := false, ttl := some 0, dead := true, steerAggression := none }, { x := 0, y := 0, vx := 0, vy := 0, ptype := PType.Y, leached := true, targetIdx := none, parentIdx := none, idle := true, wander := false, ttl := some 0, dead := true, steerAggression := none }, { x := 0, y := 0, vx := 0, vy := 0, ptype := PType.Y, leached := true, targetIdx := none, parentIdx := none, idle := true, wander := false, ttl := some 1, dead := false, steerAggression := none }, { x := 27, y := 27, vx := (11 : Rat)/10, vy := 0, ptype := PType.Y, leached := true, targetIdx := some 7, parentIdx := some 5, idle := false, wander := false, ttl := some 220, dead := false, steerAggression := none }, { x := 27, y := 27, vx := (11 : Rat)/10, vy := 0, ptype := PType.Y, leached := true, targetIdx := some 7, parentIdx := some 5, idle := false, wander := false, ttl := some 220, dead := false, steerAggression := none }, { x := 27, y := 27, vx := (11 : Rat)/10, vy := 0, ptype := PType.Y, leached := true, targetIdx := some 7, parentIdx := some 5, idle := false, wander := false, ttl := some 220, dead := false, steerAggression := none }, { x := 27, y := 27, vx := (11 : Rat)/10, vy := 0, ptype := PType.Y, leached := true, targetIdx := some 7, parentIdx := some 5, idle := false, wander := false, ttl := some 220, dead := false, steerAggression := none }], particles := [1, 2, 3, 4, 5, 6, 7, 8, 9, 10, 11, 12], spawned := [9, 10, 11, 12], k := 22 }

/-- State of the split trace after the growth pass and 8 particle-loop iterations. -/
def trS8 : SimState := { cells := [{ x := 9, y := 9, state := 0, size := 0 }, { x := 27, y := 9, state := 0, size := 0 }, { x := 45, y := 9, state := 0, size := 0 }, { x := 63, y := 9, state := 0, size := 0 }, { x := 9, y := 27, state := 0, size := 0 }, { x := 27, y := 27, state := 0, size := 0 }, { x := 45, y := 27, state := 0, size := 0 }, { x := 63, y := 27, state := 1, size := 10 }, { x := 9, y := 45, state := 0, size := 0 }, { x := 27, y := 45, state := 0, size := 0 }, { x := 45, y := 45, state := 0, size := 0 }, { x := 63, y := 45, state := 0, size := 0 }], store := [{ x := 27, y := 27, vx := 0, vy := 0, ptype := PType.compound, leached := true, targetIdx := some 5, parentIdx := none, idle := false, wander := false, ttl := some 399, dead := true, steerAggression := some ((23 : Rat)/25) }, { x := 0, y := 0, vx := 0, vy := 0, ptype := PType.Y, leached := true, targetIdx := none, parentIdx := none, idle := true, wander := false, ttl := some 1, dead := false, steerAggression := none }, { x := 0, y := 0, vx := 0, vy := 0, ptype := PType.Y, leached := true, targetIdx := none, parentIdx := none, idle := true, wander := false, ttl := some 0, dead := true, steerAggression := none }, { x := 0, y := 0, vx := 0, vy := 0, ptype := PType.Y, leached := true, targetIdx := none, parentIdx := none, idle := true, wander := false, ttl := some 0, dead := true, steerAggression := none }, { x := 0, y := 0, vx := 0, vy := 0, ptype := PType.Y, leached := true, targetIdx := none, parentIdx := none, idle := true, wander := false, ttl := some 0, dead := true, steerAggression := none }, { x := 0, y := 0, vx := 0, vy := 0, ptype := PType.Y, leached := true, targetIdx := none, parentIdx := none, idle := true, wander := false, ttl := some 0, dead := true, steerAggression := none }, { x := 0, y := 0, vx := 0, vy := 0, ptype := PType.Y, leached := true, targetIdx := none, parentIdx := none, idle := true, wander := false, ttl := some 0, dead := true, steerAggression := none }, { x := 0, y := 0, vx := 0, vy := 0, ptype := PType.Y, leached := true, targetIdx := none, parentIdx := none, idle := true, wander := false, ttl := some 0, dead := true, steerAggression := none }, { x := 0, y := 0, vx := 0, vy := 0, ptype := PType.Y, leached := true, targetIdx := none, parentIdx := none, idle := true, wander := false, ttl := some 0, dead := true, steerAggression := none }, { x := 27, y := 27, vx := (11 : Rat)/10, vy := 0, ptype := PType.Y, leached := true, targetIdx := some 7, parentIdx := some 5, idle := false, wander := false, ttl := some 220, dead := false, steerAggression := none }, { x := 27, y := 27, vx := (11 : Rat)/10, vy := 0, ptype := PType.Y, leached := true, targetIdx := some 7, parentIdx := some 5, idle := false, wander := false, ttl := some 220, dead := false, steerAggression := none }, { x := 27, y := 27, vx := (11 : Rat)/10, vy := 0, ptype := PType.Y, leached := true, targetIdx := some 7, parentIdx := some 5, idle := false, wander := false, ttl := some 220, dead := false, steerAggression := none }, { x := 27, y := 27, vx := (11 : Rat)/10, vy := 0, ptype := PType.Y, leached := true, targetIdx := some 7, parentIdx := some 5, idle := false, wander := false, ttl := some 220, dead := false, steerAggression := none }], particles := [1, 2, 3, 4, 5, 6, 7, 8, 9, 10, 11, 12], spawned := [9, 10, 11, 12], k := 22 }

/-- State of the split trace after the growth pass and 9 particle-loop iterations. -/
def trS9 : SimState := { cells := [{ x := 9, y := 9, state := 0, size := 0 }, { x := 27, y := 9, state := 0, size := 0 }, { x := 45, y := 9, state := 0, size := 0 }, { x := 63, y := 9, state := 0, size := 0 }, { x := 9, y := 27, state := 0, size := 0 }, { x := 27, y := 27, state := 0, size := 0 }, { x := 45, y := 27, state := 0, size := 0 }, { x := 63, y := 27, state := 1, size := 10 }, { x := 9, y := 45, state := 0, size := 0 }, { x := 27, y := 45, state := 0, size := 0 }, { x := 45, y := 45, state := 0, size := 0 }, { x := 63, y := 45, state := 0, size := 0 }], store := [{ x := 27, y := 27, vx := 0, vy := 0, ptype := PType.compound, leached := true, targetIdx := some 5, parentIdx := none, idle := false, wander := false, ttl := some 399, dead := true, steerAggression := some ((23 : Rat)/25) }, { x := 0, y := 0, vx := 0, vy := 0, ptype := PType.Y, leached := true, targetIdx := none, parentIdx := none, idle := true, wander := false, ttl := some 1, dead := false, steerAggression := none }, { x := 0, y := 0, vx := 0, vy := 0, ptype := PType.Y, leached := true, targetIdx := none, parentIdx := none, idle := true, wander := false, ttl := some 0, dead := true, steerAggression := none }, { x := 0, y := 0, vx := 0, vy := 0, ptype := PType.Y, leached := true, targetIdx := none, parentIdx := none, idle := true, wander := false, ttl := some 0, dead := true, steerAggression := none }, { x := 0, y := 0, vx := 0, vy := 0, ptype := PType.Y, leached := true, targetIdx := none, parentIdx := none, idle := true, wander := false, ttl := some 0, dead := true, steerAggression := none }, { x := 0, y := 0, vx := 0, vy := 0, ptype := PType.Y, leached := true, targetIdx := none, parentIdx := none, idle := true, wander := false, ttl := some 0, dead := true, steerAggression := none }, { x := 0, y := 0, vx := 0, vy := 0, ptype := PType.Y, leached := true, targetIdx := none, parentIdx := none, idle := true, wander := false, ttl := some 0, dead := true, steerAggression := none }, { x := 0, y := 0, vx := 0, vy := 0, ptype := PType.Y, leached := true, targetIdx := none, parentIdx := none, idle := true, wander := false, ttl := some 0, dead := true, steerAggression := none }, { x := 0, y := 0, vx := 0, vy := 0, ptype := PType.Y, leached := true, targetIdx := none, parentIdx := none, idle := true, wander := false, ttl := some 0, dead := true, steerAggression := none }, { x := (147 : Rat)/5, y := 27, vx := (12 : Rat)/5, vy := 0, ptype := PType.Y, leached := true, targetIdx := some 7, parentIdx := some 5, idle := false, wander := false, ttl := some 219, dead := false, steerAggression := none }, { x := 27, y := 27, vx := (11 : Rat)/10, vy := 0, ptype := PType.Y, leached := true, targetIdx := some 7, parentIdx := some 5, idle := false, wander := false, ttl := some 220, dead := false, steerAggression := none }, { x := 27, y := 27, vx := (11 : Rat)/10, vy := 0, ptype := PType.Y, leached := true, targetIdx := some 7, parentIdx := some 5, idle := false, wander := false, ttl := some 220, dead := false, steerAggression := none }, { x := 27, y := 27, vx := (11 : Rat)/10, vy := 0, ptype := PType.Y, leached := true, targetIdx := some 7, parentIdx := some 5, idle := false, wander := false, ttl := some 220, dead := false, steerAggression := none }], particles := [1, 9, 10, 11, 12, 9, 10, 11, 12], spawned := [9, 10, 11, 12], k := 22 }

/-- One loop iteration under fuel, when the loop guard holds. -/
theorem stepLoop_step (geo : Geo) (inp : Inputs) (fuel : ℕ) (st st' : SimState)
    (i : ℕ) (h : i < st.particles.length)
    (he : processIter geo inp st i = st') :
    stepLoop geo inp (fuel+1) st i = stepLoop geo inp fuel st' (i+1) := by
  simp [stepLoop, h, he]

/-- The loop returns the state unchanged once the index reaches the length. -/
theorem stepLoop_exit (geo : Geo) (inp : Inputs) (fuel : ℕ) (st : SimState)
    (i : ℕ) (h : ¬ i < st.particles.length) :
    stepLoop geo inp fuel st i = st := by
  cases fuel <;> simp [stepLoop, h]

/-- The compound particle after iteration 0's transport writes (its steering
direction is `normalized (0,0) = (0,0)`, so it does not move). -/
def pAfter : Particle := { pComp with ttl := some 399 }

/-- `stSplit` mid-iteration-0, after the store write and before interaction. -/
def stMid : SimState := { trS0 with store := trS0.store.set 0 pAfter }

def w0T : World := ⟨trS0.cells, trS0.store.set 0 pAfter, [], 10⟩

def wFT : World := ⟨trS1.cells, trS1.store, trS1.spawned, trS1.k⟩

/-- Iteration 0 of the split trace: the compound contacts cell 5, kills it and
spawns 4 cytotoxic particles (decomposed so each equation reduces cheaply). -/
theorem trStep0 : processIter geoW4 inpHalf trS0 0 = trS1 := by
  have h1 : processIter geoW4 inpHalf trS0 0
      = iterEnd (stMid.withWorld (compoundInteract geoW4 inpHalf stMid.world 0)) := by
    with_unfolding_all rfl
  have h2 : stMid.world = w0T := by with_unfolding_all rfl
  have h3 : compoundInteract geoW4 inpHalf w0T 0 = wFT := by with_unfolding_all rfl
  have h4 : iterEnd (stMid.withWorld wFT) = trS1 := by with_unfolding_all rfl
  rw [h1, h2, h3, h4]

/-- Iteration 1 of the split trace (a TTL-death `continue`). -/
theorem trStep1 : processIter geoW4 inpHalf trS1 1 = trS2 := by
  with_unfolding_all rfl

/-- Iteration 2 of the split trace (a TTL-death `continue`). -/
theorem trStep2 : processIter geoW4 inpHalf trS2 2 = trS3 := by
  with_unfolding_all rfl

/-- Iteration 3 of the split trace (a TTL-death `continue`). -/
theorem trStep3 : processIter geoW4 inpHalf trS3 3 = trS4 := by
  with_unfolding_all rfl

/-- Iteration 4 of the split trace (a TTL-death `continue`). -/
theorem trStep4 : processIter geoW4 inpHalf trS4 4 = trS5 := by
  with_unfolding_all rfl

/-- Iteration 5 of the split trace (a TTL-death `continue`). -/
theorem trStep5 : processIter geoW4 inpHalf trS5 5 = trS6 := by
  with_unfolding_all rfl

/-- Iteration 6 of the split trace (a TTL-death `continue`). -/
theorem trStep6 : processIter geoW4 inpHalf trS6 6 = trS7 := by
  with_unfolding_all rfl

/-- Iteration 7 of the split trace (a TTL-death `continue`). -/
theorem trStep7 : processIter geoW4 inpHalf trS7 7 = trS8 := by
  with_unfolding_all rfl

/-- Iteration 8 of the split trace (a TTL-death `continue`). -/
theorem trStep8 : processIter geoW4 inpHalf trS8 8 = trS9 := by
  with_unfolding_all rfl

/-- The whole tick on `stSplit`, evaluated: the growth pass converts nothing
(`growthRate = 0`), iteration 0 splits, iterations 1–7 expire fillers,
iteration 8 processes the first spawned Y, and the loop exits at `i = 9`. -/
theorem splitTickEval : stepSimulation geoW4 inpHalf stSplit = trS9 := by
  have h0 : stepSimulation geoW4 inpHalf stSplit = stepLoop geoW4 inpHalf 1210 trS0 0 := by
    with_unfolding_all rfl
  calc stepSimulation geoW4 inpHalf stSplit
      = stepLoop geoW4 inpHalf 1210 trS0 0 := h0
    _ = stepLoop geoW4 inpHalf 1209 trS1 1 := stepLoop_step geoW4 inpHalf 1209 _ _ 0 (by with_unfolding_all decide) trStep0
    _ = stepLoop geoW4 inpHalf 1208 trS2 2 := stepLoop_step geoW4 inpHalf 1208 _ _ 1 (by with_unfolding_all decide) trStep1
    _ = stepLoop geoW4 inpHalf 1207 trS3 3 := stepLoop_step geoW4 inpHalf 1207 _ _ 2 (by with_unfolding_all decide) trStep2
    _ = stepLoop geoW4 inpHalf 1206 trS4 4 := stepLoop_step geoW4 inpHalf 1206 _ _ 3 (by with_unfolding_all decide) trStep3
    _ = stepLoop geoW4 inpHalf 1205 trS5 5 := stepLoop_step geoW4 inpHalf 1205 _ _ 4 (by with_unfolding_all decide) trStep4
    _ = stepLoop geoW4 inpHalf 1204 trS6 6 := stepLoop_step geoW4 inpHalf 1204 _ _ 5 (by with_unfolding_all decide) trStep5
    _ = stepLoop geoW4 inpHalf 1203 trS7 7 := stepLoop_step geoW4 inpHalf 1203 _ _ 6 (by with_unfolding_all decide) trStep6
    _ = stepLoop geoW4 inpHalf 1202 trS8 8 := stepLoop_step geoW4 inpHalf 1202 _ _ 7 (by with_unfolding_all decide) trStep7
    _ = stepLoop geoW4 inpHalf 1201 trS9 9 := stepLoop_step geoW4 inpHalf 1201 _ _ 8 (by with_unfolding_all decide) trStep8
    _ = trS9 := stepLoop_exit geoW4 inpHalf 1201 trS9 9 (by with_unfolding_all decide)

/-! ## C1, C2, C3: the interaction pass as the code actually runs it -/

/-- Claim C1: the `Y`-interaction block (script lines 254–301) sits inside
`if(part.type === 'compound' && part.leached)` — the brace on line 308 closes
that `if`, not the loop — so it is unreachable.  Concretely: `stC1` holds one
live `Y` particle within `target.size + 10` of its live Tumor target (distance
15 ≤ 20), yet after the tick the target is still Tumor with its size intact
and the particle is alive, where the claim requires the target (and the
`parentIndex` site) killed and the particle marked dead. -/
theorem C1_targeted_y_never_kills :
    geoW.hyp (27 - 42) (27 - 27) ≤ 10 + 10 ∧
    ((stC1.cells[4]?).map Cell.state = some 1) ∧
    (stepSimulation geoW inpHalf stC1).cells[4]? = some (tum 27 27 10) ∧
    ((stepSimulation geoW inpHalf stC1).store[0]?).map Particle.dead = some false := by
  refine ⟨by with_unfolding_all decide, by with_unfolding_all rfl, ?_, ?_⟩
  · with_unfolding_all rfl
  · with_unfolding_all rfl

/-- Claim C2: one Compound-to-Tumor contact event does create exactly 4 new
Cytotoxic objects and mark exactly 1 Compound dead, but because the script's
append/purge (lines 309–318) runs INSIDE the per-particle loop, the spawned
batch is appended on every later completing iteration: in the `stSplit` tick
the 4 new objects enter the particle set as 8 references, and the net
particle-count change of the tick is 0 (9 entries before, 9 after, with the
batch doubled), not +3 — with no cap truncation involved (at most 16 entries
ever exist). -/
theorem C2_split_not_conservative :
    (stepSimulation geoW4 inpHalf stSplit).store.length = stSplit.store.length + 4 ∧
    ((stepSimulation geoW4 inpHalf stSplit).store[0]?).map Particle.dead = some true ∧
    (stepSimulation geoW4 inpHalf stSplit).particles.length = stSplit.particles.length ∧
    ((stepSimulation geoW4 inpHalf stSplit).particles.filter (fun pid => 9 ≤ pid)).length = 8 := by
  rw [splitTickEval]
  refine ⟨by with_unfolding_all rfl, by with_unfolding_all rfl, ?_, ?_⟩
  · with_unfolding_all rfl
  · with_unfolding_all rfl

/-- Claim C3: particles spawned during a tick are appended mid-pass and acted
on in the same tick.  In the `stSplit` tick, id 9 does not exist at tick start
(the store holds 9 objects); it is created by the split with
`ttl = 220`, position `(27,27)`, velocity `(11/10, 0)`, and by the end of the
same tick it has been steered (velocity `(12/5, 0)` toward its target), moved
(`x = 147/5`), aged (`ttl = 219`), and its reference appears TWICE in the
particle list — while its identically-spawned sibling id 10 still shows the
spawn values, pinning the change to same-tick processing. -/
theorem C3_spawned_acts_same_tick :
    stSplit.store.length = 9 ∧
    ((stepSimulation geoW4 inpHalf stSplit).store[9]?).map
      (fun p => (p.ttl, p.x, p.vx)) = some (some 219, 147/5, 12/5) ∧
    ((stepSimulation geoW4 inpHalf stSplit).store[10]?).map
      (fun p => (p.ttl, p.x, p.vx)) = some (some 220, 27, 11/10) ∧
    (stepSimulation geoW4 inpHalf stSplit).particles.count 9 = 2 := by
  rw [splitTickEval]
  refine ⟨by with_unfolding_all rfl, by with_unfolding_all rfl, ?_, ?_⟩
  · with_unfolding_all rfl
  · with_unfolding_all rfl

/-! ## C6: the growth pass alone never regresses a tumor site -/

/-- The apply loop leaves every tumor cell untouched: conversions require
`newStates[i] === 1 && cells[i].state === 0`. -/
theorem growthApplyGo_tumor_fixed (inp : Inputs) :
    ∀ (cells : List Cell) (flags : List Bool) (k i : ℕ) (c : Cell),
      cells[i]? = some c → c.state = 1 →
      (growthApplyGo inp cells flags k).1[i]? = some c := by
  intro cells
  induction cells with
  | nil =>
    intro flags k i c hget
    simp at hget
  | cons hd tl ih =>
    intro flags k i c hget hstate
    cases flags with
    | nil =>
      cases i with
      | zero =>
        simp only [List.getElem?_cons_zero, Option.some.injEq] at hget
        subst hget
        simp [growthApplyGo]
      | succ n =>
        simp only [List.getElem?_cons_succ] at hget
        simp only [growthApplyGo, List.getElem?_cons_succ]
        exact ih [] k n c hget hstate
    | cons f fs =>
      cases i with
      | zero =>
        simp only [List.getElem?_cons_zero, Option.some.injEq] at hget
        subst hget
        simp only [growthApplyGo]
        split
        · next h =>
          simp only [Bool.and_eq_true, beq_iff_eq] at h
          omega
        · simp
      | succ n =>
        simp only [List.getElem?_cons_succ] at hget
        simp only [growthApplyGo]
        split
        · simp only [List.getElem?_cons_succ]
          exact ih fs (k+1) n c hget hstate
        · simp only [List.getElem?_cons_succ]
          exact ih fs k n c hget hstate

/-- Claim C6: the growth pass is monotone — every site that is Tumor before
the pass is the same (still Tumor) cell after it, for every random stream and
every configuration input. -/
theorem C6_growth_monotone (geo : Geo) (inp : Inputs) (cells : List Cell)
    (k i : ℕ) (c : Cell) (hget : cells[i]? = some c) (hstate : c.state = 1) :
    (growthPass geo inp cells k).1[i]? = some c := by
  unfold growthPass
  exact growthApplyGo_tumor_fixed inp cells _ _ i c hget hstate

/-- Witness for C6 at a concrete input: the single tumor cell of `stC1`
survives the growth pass unchanged. -/
theorem C6_growth_monotone_witness :
    stC1.cells[4]? = some (tum 27 27 10) ∧ (tum 27 27 10).state = 1 ∧
    (growthPass geoW inpHalf stC1.cells 0).1[4]? = some (tum 27 27 10) :=
  ⟨by with_unfolding_all rfl, rfl,
    C6_growth_monotone geoW inpHalf stC1.cells 0 4 (tum 27 27 10)
      (by with_unfolding_all rfl) rfl⟩

/-! ## C8: the 1200-particle cap -/

/-- Each append/purge step keeps the particle list within
`max (previous length) 1200`: the truncated batch tops the list up to at most
1200, and the dead-filter only shrinks it. -/
theorem iterEnd_length (st : SimState) :
    (iterEnd st).particles.length ≤ max st.particles.length 1200 := by
  unfold iterEnd
  refine le_trans (List.length_filter_le _ _) ?_
  split
  · next h =>
    simp only [List.length_append, List.length_take]
    omega
  · next h =>
    simp only [List.length_append]
    omega

/-- One loop iteration keeps the particle list within
`max (previous length) 1200`. -/
theorem processIter_length (geo : Geo) (inp : Inputs) (st : SimState) (i : ℕ) :
    (processIter geo inp st i).particles.length ≤ max st.particles.length 1200 := by
  simp only [processIter]
  split
  · exact Nat.le_max_left _ _
  · split
    · exact Nat.le_max_left _ _
    · split
      · exact Nat.le_max_left _ _
      · refine le_trans (iterEnd_length _) ?_
        simp [SimState.withWorld]

/-- The particle loop keeps the particle list within
`max (initial length) 1200` for every fuel. -/
theorem stepLoop_length (geo : Geo) (inp : Inputs) :
    ∀ (fuel : ℕ) (st : SimState) (i : ℕ),
      (stepLoop geo inp fuel st i).particles.length ≤ max st.particles.length 1200 := by
  intro fuel
  induction fuel with
  | zero =>
    intro st i
    simp only [stepLoop]
    exact Nat.le_max_left _ _
  | succ n ih =>
    intro st i
    simp only [stepLoop]
    split
    · refine le_trans (ih (processIter geo inp st i) (i+1)) ?_
      exact Nat.max_le.mpr ⟨processIter_length geo inp st i, Nat.le_max_right _ _⟩
    · exact Nat.le_max_left _ _

/-- A whole tick keeps the particle list within `max (initial length) 1200`. -/
theorem stepSimulation_particles_length (geo : Geo) (inp : Inputs) (st : SimState) :
    (stepSimulation geo inp st).particles.length ≤ max st.particles.length 1200 := by
  unfold stepSimulation
  refine le_trans (stepLoop_length geo inp _ _ 0) ?_
  simp

/-- Claim C8: a tick that starts within the cap ends within the cap — every
append admits only as many spawned references as remain under 1200, and the
purge only removes; so the active set after the tick never exceeds 1200. -/
theorem C8_cap_enforced (geo : Geo) (inp : Inputs) (st : SimState)
    (h : st.particles.length ≤ 1200) :
    (stepSimulation geo inp st).particles.length ≤ 1200 :=
  le_trans (stepSimulation_particles_length geo inp st)
    (Nat.max_le.mpr ⟨h, le_rfl⟩)

/-- Witness for C8: the one-particle state `stC1` stays within the cap. -/
theorem C8_cap_enforced_witness :
    stC1.particles.length ≤ 1200 ∧
    (stepSimulation geoW inpHalf stC1).particles.length ≤ 1200 :=
  ⟨by with_unfolding_all decide,
    C8_cap_enforced geoW inpHalf stC1 (by with_unfolding_all decide)⟩

/-! ## C4: the vessel-exclusion invariant -/

/-- No tumor site sits inside the vessel. -/
def VesselInv (geo : Geo) (cells : List Cell) : Prop :=
  ∀ (i : ℕ) (c : Cell), cells[i]? = some c → c.state = 1 →
    isInVesselXY geo c.x c.y = false

/-- `next` keeps every one of its tumor cells exactly as it was in `prev`
(the interaction pass only ever kills, so its tumor set only shrinks,
cell records unchanged). -/
def TumorSub (prev next : List Cell) : Prop :=
  ∀ (i : ℕ) (c : Cell), next[i]? = some c → c.state = 1 → prev[i]? = some c

theorem TumorSub.rfl (cells : List Cell) : TumorSub cells cells :=
  fun _ _ h _ => h

theorem TumorSub.trans {a b c : List Cell} (h1 : TumorSub a b) (h2 : TumorSub b c) :
    TumorSub a c :=
  fun i cc hg hs => h1 i cc (h2 i cc hg hs) hs

theorem VesselInv.of_tumorSub {geo : Geo} {prev next : List Cell}
    (hinv : VesselInv geo prev) (hsub : TumorSub prev next) : VesselInv geo next :=
  fun i c hg hs => hinv i c (hsub i c hg hs) hs

/-- Overwriting one slot with a non-tumor cell only shrinks the tumor set. -/
theorem TumorSub.set_not_tumor (cells : List Cell) (i : ℕ) (a : Cell)
    (ha : a.state ≠ 1) : TumorSub cells (cells.set i a) := by
  intro j c hg hs
  rw [List.getElem?_set] at hg
  by_cases e : i = j
  · simp only [e, if_true] at hg
    split at hg
    · cases hg
      exact absurd hs ha
    · cases hg
  · simpa [e] using hg

theorem killCell_tumorSub (cells : List Cell) (i : ℕ) :
    TumorSub cells (killCell cells i) := by
  unfold killCell
  split
  · exact TumorSub.set_not_tumor _ _ _ (by simp)
  · exact TumorSub.rfl _

theorem killCellIfTumor_tumorSub (cells : List Cell) (i : ℕ) :
    TumorSub cells (killCellIfTumor cells i) := by
  unfold killCellIfTumor
  split
  · split
    · exact killCell_tumorSub _ _
    · exact TumorSub.rfl _
  · exact TumorSub.rfl _

theorem cascadeKill_tumorSub (inp : Inputs) (cells : List Cell) (nn : List ℕ)
    (k : ℕ) : TumorSub cells (cascadeKill inp cells nn k).1 := by
  unfold cascadeKill
  split
  · split
    · dsimp only
      split
      · exact killCellIfTumor_tumorSub _ _
      · exact TumorSub.rfl _
    · exact TumorSub.rfl _
  · exact TumorSub.rfl _

theorem splitOne_tumorSub (geo : Geo) (inp : Inputs) (cIdx : ℕ) (nts : List ℕ)
    (kk : ℕ) (w : World) : TumorSub w.cells (splitOne geo inp cIdx nts kk w).cells := by
  unfold splitOne
  split
  · exact TumorSub.rfl _
  · try dsimp only
    split
    · try dsimp only
      split
      · exact TumorSub.rfl _
      · try dsimp only
        split
        · try dsimp only [pushSpawn]
          exact TumorSub.trans (killCell_tumorSub _ _) (cascadeKill_tumorSub _ _ _ _)
        · try dsimp only [pushSpawn]
          exact TumorSub.rfl _
    · try dsimp only
      split
      · try dsimp only
        split
        · exact TumorSub.rfl _
        · try dsimp only [pushSpawn]
          exact TumorSub.rfl _
      · try dsimp only [pushSpawn]
        exact TumorSub.rfl _

theorem splitAll_tumorSub (geo : Geo) (inp : Inputs) (cIdx : ℕ) (w : World) :
    TumorSub w.cells (splitAll geo inp cIdx w).cells := by
  unfold splitAll
  dsimp only
  have h0 : TumorSub w.cells
      ({ w with cells := killCell w.cells cIdx } : World).cells :=
    killCell_tumorSub w.cells cIdx
  exact TumorSub.trans h0
    (TumorSub.trans (splitOne_tumorSub geo inp cIdx _ 0 _)
      (TumorSub.trans (splitOne_tumorSub geo inp cIdx _ 1 _)
        (TumorSub.trans (splitOne_tumorSub geo inp cIdx _ 2 _)
          (splitOne_tumorSub geo inp cIdx _ 3 _))))

theorem yInteract_tumorSub (geo : Geo) (inp : Inputs) (w : World) (pid : ℕ) :
    TumorSub w.cells (yInteract geo inp w pid).cells := by
  unfold yInteract
  split
  · exact TumorSub.rfl _
  · split
    · split
      · split
        · split
          · try dsimp only
            split
            · try dsimp only
              split
              · exact TumorSub.trans (killCell_tumorSub _ _)
                  (TumorSub.trans (killCellIfTumor_tumorSub _ _)
                    (cascadeKill_tumorSub _ _ _ _))
              · exact TumorSub.trans (killCell_tumorSub _ _)
                  (cascadeKill_tumorSub _ _ _ _)
            · exact TumorSub.rfl _
          · exact TumorSub.rfl _
        · exact TumorSub.rfl _
      · split
        · try dsimp only
          exact TumorSub.trans (killCell_tumorSub _ _) (cascadeKill_tumorSub _ _ _ _)
        · exact TumorSub.rfl _
    · exact TumorSub.rfl _

theorem splitStage_tumorSub (geo : Geo) (inp : Inputs) (w : World) (pid : ℕ)
    (px py : ℚ) : TumorSub w.cells (splitStage geo inp w pid px py).cells := by
  unfold splitStage
  split
  · exact splitAll_tumorSub _ _ _ _
  · exact TumorSub.rfl _

theorem wanderStage_cells (inp : Inputs) (w : World) (pid : ℕ) :
    (wanderStage inp w pid).cells = w.cells := by
  unfold wanderStage
  split
  · rfl
  · split
    · split <;> rfl
    · rfl

theorem offCanvasStage_cells (geo : Geo) (w : World) (pid : ℕ) :
    (offCanvasStage geo w pid).cells = w.cells := by
  unfold offCanvasStage
  split
  · rfl
  · split <;> rfl

theorem compoundInteract_tumorSub (geo : Geo) (inp : Inputs) (w : World) (pid : ℕ) :
    TumorSub w.cells (compoundInteract geo inp w pid).cells := by
  unfold compoundInteract
  split
  · exact TumorSub.rfl _
  · split
    · rw [offCanvasStage_cells, wanderStage_cells]
      exact TumorSub.trans (splitStage_tumorSub geo inp w pid _ _)
        (yInteract_tumorSub geo inp _ pid)
    · exact TumorSub.rfl _

/-- One loop iteration only kills cells (the transport blocks never touch the
grid). -/
theorem processIter_tumorSub (geo : Geo) (inp : Inputs) (st : SimState) (i : ℕ) :
    TumorSub st.cells (processIter geo inp st i).cells := by
  simp only [processIter]
  split
  · exact TumorSub.rfl _
  · split
    · exact TumorSub.rfl _
    · split
      · exact TumorSub.rfl _
      · dsimp only [iterEnd, SimState.withWorld, SimState.world]
        exact compoundInteract_tumorSub geo inp _ _

/-- The particle loop only kills cells. -/
theorem stepLoop_tumorSub (geo : Geo) (inp : Inputs) :
    ∀ (fuel : ℕ) (st : SimState) (i : ℕ),
      TumorSub st.cells (stepLoop geo inp fuel st i).cells := by
  intro fuel
  induction fuel with
  | zero =>
    intro st i
    simp only [stepLoop]
    exact TumorSub.rfl _
  | succ n ih =>
    intro st i
    simp only [stepLoop]
    split
    · exact TumorSub.trans (processIter_tumorSub geo inp st i)
        (ih (processIter geo inp st i) (i+1))
    · exact TumorSub.rfl _

/-- A `true` scan flag comes either from an existing tumor cell or from a
healthy cell outside the vessel (the vessel guard `continue`s first). -/
theorem growthScanGo_flag_sound (geo : Geo) (inp : Inputs) (cells : List Cell) :
    ∀ (is : List ℕ) (k j : ℕ),
      (growthScanGo geo inp cells is k).1[j]? = some true →
      ∃ (i : ℕ) (c : Cell), is[j]? = some i ∧ cells[i]? = some c ∧
        (c.state = 1 ∨ isInVesselXY geo c.x c.y = false) := by
  intro is
  induction is with
  | nil =>
    intro k j h
    simp [growthScanGo] at h
  | cons i rest ih =>
    intro k j h
    simp only [growthScanGo] at h
    split at h
    · -- cells[i]? = none
      cases j with
      | zero => simp at h
      | succ n =>
        simp only [List.getElem?_cons_succ] at h ⊢
        obtain ⟨i', c, h1, h2, h3⟩ := ih k n h
        exact ⟨i', c, h1, h2, h3⟩
    · next c hcell =>
      split at h
      · -- existing tumor
        next hstate =>
        cases j with
        | zero =>
          refine ⟨i, c, by simp, hcell, Or.inl ?_⟩
          simpa using hstate
        | succ n =>
          simp only [List.getElem?_cons_succ] at h ⊢
          exact ih k n h
      · split at h
        · -- inside vessel: flag false
          cases j with
          | zero => simp at h
          | succ n =>
            simp only [List.getElem?_cons_succ] at h ⊢
            exact ih k n h
        · next hves =>
          split at h
          · -- neigh > 0: flag is the random draw, cell not in vessel
            cases j with
            | zero =>
              refine ⟨i, c, by simp, hcell, Or.inr ?_⟩
              simpa using hves
            | succ n =>
              simp only [List.getElem?_cons_succ] at h ⊢
              exact ih (k+1) n h
          · cases j with
            | zero => simp at h
            | succ n =>
              simp only [List.getElem?_cons_succ] at h ⊢
              exact ih k n h

/-- The apply loop preserves the vessel invariant when every flag that can
convert a healthy cell certifies the cell is outside the vessel. -/
theorem growthApplyGo_vesselInv (geo : Geo) (inp : Inputs) :
    ∀ (cells : List Cell) (flags : List Bool) (k : ℕ),
      (∀ (j : ℕ) (c : Cell), cells[j]? = some c → c.state = 0 →
         flags[j]? = some true → isInVesselXY geo c.x c.y = false) →
      VesselInv geo cells →
      VesselInv geo (growthApplyGo inp cells flags k).1 := by
  intro cells
  induction cells with
  | nil =>
    intro flags k _ _ i c hget
    simp [growthApplyGo] at hget
  | cons hd tl ih =>
    intro flags k hflag hinv
    have hinvtl : VesselInv geo tl := fun j c hg hs => hinv (j+1) c (by simpa using hg) hs
    cases flags with
    | nil =>
      intro i c hget hstate
      cases i with
      | zero =>
        simp only [growthApplyGo, List.getElem?_cons_zero, Option.some.injEq] at hget
        exact hget ▸ hinv 0 hd (by simp) (hget ▸ hstate)
      | succ n =>
        simp only [growthApplyGo, List.getElem?_cons_succ] at hget
        exact ih [] k (by simp) hinvtl n c hget hstate
    | cons f fs =>
      have hflagtl : ∀ (j : ℕ) (c : Cell), tl[j]? = some c → c.state = 0 →
          fs[j]? = some true → isInVesselXY geo c.x c.y = false :=
        fun j c hg hs hf => hflag (j+1) c (by simpa using hg) hs (by simpa using hf)
      intro i c hget hstate
      simp only [growthApplyGo] at hget
      split at hget
      · next hcond =>
        simp only [Bool.and_eq_true, beq_iff_eq] at hcond
        cases i with
        | zero =>
          simp only [List.getElem?_cons_zero, Option.some.injEq] at hget
          subst hget
          exact hflag 0 hd (by simp) hcond.2 (by simp [hcond.1])
        | succ n =>
          simp only [List.getElem?_cons_succ] at hget
          exact ih fs (k+1) hflagtl hinvtl n c hget hstate
      · cases i with
        | zero =>
          simp only [List.getElem?_cons_zero, Option.some.injEq] at hget
          exact hget ▸ hinv 0 hd (by simp) (hget ▸ hstate)
        | succ n =>
          simp only [List.getElem?_cons_succ] at hget
          exact ih fs k hflagtl hinvtl n c hget hstate

/-- The growth pass preserves the vessel invariant: it converts only cells
the scan certified to lie outside the vessel. -/
theorem growthPass_vesselInv (geo : Geo) (inp : Inputs) (cells : List Cell)
    (k : ℕ) (hinv : VesselInv geo cells) :
    VesselInv geo (growthPass geo inp cells k).1 := by
  unfold growthPass
  dsimp only
  refine growthApplyGo_vesselInv geo inp cells _ _ ?_ hinv
  intro j c hget hstate hflag
  obtain ⟨i, c', h1, h2, h3⟩ := growthScanGo_flag_sound geo inp cells _ _ j hflag
  rw [List.getElem?_range] at h1
  cases h1
  rw [hget] at h2
  cases h2
  rcases h3 with h3 | h3
  · rw [hstate] at h3
    cases h3
  · exact h3
  · exact (List.getElem?_eq_some.mp hget).1

/-- Setting one slot to a cell outside the vessel preserves the invariant. -/
theorem VesselInv.set (geo : Geo) (cells : List Cell) (idx : ℕ) (a : Cell)
    (hinv : VesselInv geo cells) (hv : isInVesselXY geo a.x a.y = false) :
    VesselInv geo (cells.set idx a) := by
  intro j c hg hs
  rw [List.getElem?_set] at hg
  by_cases e : idx = j
  · simp only [e, if_true] at hg
    split at hg
    · cases hg
      exact hv
    · cases hg
  · exact hinv j c (by simpa [e] using hg) hs

/-- The seeding BFS preserves the vessel invariant: it converts a site only
after the `isInVesselXY` guard rejects it. -/
theorem seedLoop_vesselInv (geo : Geo) (inp : Inputs) :
    ∀ (fuel : ℕ) (cells : List Cell) (q seen : List ℕ) (seeded target k : ℕ),
      VesselInv geo cells →
      VesselInv geo (seedLoop geo inp fuel cells q seen seeded target k).1 := by
  intro fuel
  induction fuel with
  | zero =>
    intro cells q seen seeded target k hinv
    simpa [seedLoop] using hinv
  | succ n ih =>
    intro cells q seen seeded target k hinv
    simp only [seedLoop]
    split
    · exact hinv
    · split
      · split
        · exact ih _ _ _ _ _ _ hinv
        · next c hcell =>
          split
          · exact ih _ _ _ _ _ _ hinv
          · next hves =>
            split
            · next hconv =>
              refine ih _ _ _ _ _ _ ?_
              refine VesselInv.set geo cells _ _ hinv ?_
              simpa using hves
            · exact ih _ _ _ _ _ _ hinv
      · exact hinv

/-- Every cell of the freshly initialized grid is healthy. -/
theorem initCells_vesselInv (geo : Geo) : VesselInv geo (initCells geo) := by
  intro i c hg hs
  have hmem : c ∈ initCells geo := List.getElem?_mem hg
  simp only [initCells, List.mem_flatMap, List.mem_map] at hmem
  obtain ⟨iy, _, ix, _, hc⟩ := hmem
  rw [← hc] at hs
  cases hs

/-- `seedInitial` establishes the vessel invariant from any input grid. -/
theorem seedInitial_vesselInv (geo : Geo) (inp : Inputs) (cells0 : List Cell)
    (k : ℕ) : VesselInv geo (seedInitial geo inp cells0 k).1 := by
  unfold seedInitial
  dsimp only
  refine seedLoop_vesselInv geo inp _ _ _ _ _ _ _ ?_
  intro i c hg hs
  have hmem : c ∈ seedClear cells0 := List.getElem?_mem hg
  simp only [seedClear, List.mem_map] at hmem
  obtain ⟨c0, _, hc⟩ := hmem
  rw [← hc] at hs
  cases hs

/-- One tick preserves the vessel invariant. -/
theorem stepSimulation_vesselInv (geo : Geo) (inp : Inputs) (st : SimState)
    (hinv : VesselInv geo st.cells) :
    VesselInv geo (stepSimulation geo inp st).cells := by
  unfold stepSimulation
  dsimp only
  exact VesselInv.of_tumorSub (growthPass_vesselInv geo inp st.cells st.k hinv)
    (stepLoop_tumorSub geo inp _ _ 0)

/-- Claim C4: in every reachable simulation state — after page load, any
number of `start`, `dose` and tick calls — no grid site is simultaneously
Tumor and inside the vessel. -/
theorem C4_vessel_exclusion (geo : Geo) (st : SimState) (h : Reachable geo st) :
    VesselInv geo st.cells := by
  induction h with
  | init => exact initCells_vesselInv geo
  | startStep inp st h ih => exact seedInitial_vesselInv geo inp (initCells geo) st.k
  | doseStep inp amount? st h ih => exact ih
  | tickStep inp st h ih => exact stepSimulation_vesselInv geo inp st ih

/-- Witness for C4 at the initial state. -/
theorem C4_vessel_exclusion_witness :
    VesselInv geoW (SimState.mk (initCells geoW) [] [] [] 0).cells :=
  C4_vessel_exclusion geoW _ (Reachable.init)

/-! ## C9: dosing -/

/-- What claim C9 asserts of each particle a dose creates: a fresh unleached
compound inside the vessel that either wanders (short TTL 120) or targets a
site that is Tumor at spawn time with steer aggression 0.92. -/
def doseParticleOk (geo : Geo) (cells : List Cell) (p : Particle) : Prop :=
  p.ptype = PType.compound ∧ p.leached = false ∧
  geo.boundaryX p.y ≤ p.x ∧
  ((p.wander = true ∧ p.ttl = some 120) ∨
   (p.wander = false ∧ p.ttl = some 400 ∧ p.steerAggression = some (23/25) ∧
     ∃ (t : ℕ) (c : Cell), p.targetIdx = some t ∧ cells[t]? = some c ∧ c.state = 1))

/-- The `bestIdx` scan only ever stores indices of tumor cells. -/
theorem nearestTumorGo_sound (geo : Geo) (cells : List Cell) (px py : ℚ) :
    ∀ (l : List (ℕ × Cell)) (best : ℤ × ℚ),
      (∀ pr ∈ l, cells[pr.1]? = some pr.2) →
      (0 ≤ best.1 → ∃ c, cells[best.1.toNat]? = some c ∧ c.state = 1) →
      0 ≤ (nearestTumorGo geo px py l best).1 →
      ∃ c, cells[(nearestTumorGo geo px py l best).1.toNat]? = some c ∧
        c.state = 1 := by
  intro l
  induction l with
  | nil =>
    intro best _ hbest h
    exact hbest h
  | cons pr rest ih =>
    intro best hl hbest
    simp only [nearestTumorGo]
    split
    · next hstate =>
      split
      · refine ih _ (fun x hx => hl x (by simp [hx])) ?_
        intro _
        refine ⟨pr.2, ?_, by simpa using hstate⟩
        simpa using hl pr (by simp)
      · exact ih _ (fun x hx => hl x (by simp [hx])) hbest
    · exact ih _ (fun x hx => hl x (by simp [hx])) hbest

/-- If the nearest-tumor scan returns a nonnegative index, that index holds a
tumor cell. -/
theorem nearestTumorIdx_sound (geo : Geo) (cells : List Cell) (px py : ℚ)
    (h : 0 ≤ (nearestTumorIdx geo cells px py).1) :
    ∃ c, cells[(nearestTumorIdx geo cells px py).1.toNat]? = some c ∧
      c.state = 1 := by
  unfold nearestTumorIdx at h ⊢
  refine nearestTumorGo_sound geo cells px py cells.enum (-1, 10^9) ?_ ?_ h
  · intro pr hpr
    exact (List.mem_enum_iff_getElem?).mp hpr
  · intro h0
    norm_num at h0

/-- One pass of the dose loop appends exactly one particle object and its
fresh id, and the object satisfies `doseParticleOk`. -/
theorem spawnOneDose_spec (geo : Geo) (inp : Inputs) (cells : List Cell)
    (a : ℚ) (store : List Particle) (particles : List ℕ) (k : ℕ)
    (hrnd : ∀ j, 0 ≤ inp.rnd j ∧ inp.rnd j < 1)
    (hgeo : ∀ y, geo.boundaryX y + 4 ≤ geo.w) :
    ∃ (p : Particle) (k' : ℕ),
      spawnOneDose geo inp cells a store particles k
        = (store ++ [p], particles ++ [store.length], k') ∧
      doseParticleOk geo cells p := by
  have hpos : ∀ y r, 0 ≤ r → r < 1 →
      geo.boundaryX y ≤ geo.boundaryX y + 4 + r * (geo.w - geo.boundaryX y - 4) := by
    intro y r h0 _
    have hw := hgeo y
    have : 0 ≤ r * (geo.w - geo.boundaryX y - 4) :=
      mul_nonneg h0 (by linarith)
    linarith
  unfold spawnOneDose
  dsimp only
  split
  · next pk heq =>
    refine ⟨pk.1, pk.2, rfl, ?_⟩
    split at heq
    · cases heq
    · split at heq ; rename_i hbest
      · split at heq
        · next bestC hcell =>
          cases heq
          refine ⟨rfl, rfl, ?_, Or.inr ⟨rfl, rfl, rfl, ?_⟩⟩
          · exact hpos _ _ (hrnd _).1 (hrnd _).2
          · obtain ⟨c, hc, hcs⟩ := nearestTumorIdx_sound geo cells _ _ hbest
            exact ⟨_, c, rfl, hc, hcs⟩
        · cases heq
      · cases heq
  · refine ⟨_, _, rfl, ?_⟩
    refine ⟨rfl, rfl, ?_, Or.inl ⟨rfl, rfl⟩⟩
    exact hpos _ _ (hrnd _).1 (hrnd _).2

/-- One pass of the dose loop always appends exactly one object and one id,
whatever the draws. -/
theorem spawnOneDose_shape (geo : Geo) (inp : Inputs) (cells : List Cell)
    (a : ℚ) (store : List Particle) (particles : List ℕ) (k : ℕ) :
    ∃ (p : Particle) (k' : ℕ),
      spawnOneDose geo inp cells a store particles k
        = (store ++ [p], particles ++ [store.length], k') := by
  unfold spawnOneDose
  dsimp only
  split
  · exact ⟨_, _, rfl⟩
  · exact ⟨_, _, rfl⟩

/-- Ids already stored keep their objects through the dose loop. -/
theorem spawnLoop_store_stable (geo : Geo) (inp : Inputs) (cells : List Cell)
    (a : ℚ) : ∀ (n : ℕ) (acc : List Particle × List ℕ × ℕ) (pid : ℕ)
      (p : Particle), acc.1[pid]? = some p →
      (spawnLoop geo inp cells a n acc).1[pid]? = some p := by
  intro n
  induction n with
  | zero =>
    intro acc pid p h
    simpa [spawnLoop] using h
  | succ m ih =>
    intro acc pid p h
    simp only [spawnLoop]
    refine ih _ pid p ?_
    obtain ⟨q, k', heq⟩ :=
      spawnOneDose_shape geo inp cells a acc.1 acc.2.1 acc.2.2
    rw [heq]
    have hlt : pid < acc.1.length := (List.getElem?_eq_some.mp h).1
    simp only [List.getElem?_append, hlt, if_pos]
    exact h

/-- The dose loop appends exactly `n` ids. -/
theorem spawnLoop_length (geo : Geo) (inp : Inputs) (cells : List Cell)
    (a : ℚ) : ∀ (n : ℕ) (acc : List Particle × List ℕ × ℕ),
      (spawnLoop geo inp cells a n acc).2.1.length = acc.2.1.length + n := by
  intro n
  induction n with
  | zero =>
    intro acc
    simp [spawnLoop]
  | succ m ih =>
    intro acc
    simp only [spawnLoop]
    obtain ⟨q, k', heq⟩ := spawnOneDose_shape geo inp cells a acc.1 acc.2.1 acc.2.2
    rw [ih, heq]
    simp
    omega

/-- Every id the dose loop leaves in the particle list is either an old one
or points (in the final store) to a particle satisfying `doseParticleOk`. -/
theorem spawnLoop_ok (geo : Geo) (inp : Inputs) (cells : List Cell) (a : ℚ)
    (hrnd : ∀ j, 0 ≤ inp.rnd j ∧ inp.rnd j < 1)
    (hgeo : ∀ y, geo.boundaryX y + 4 ≤ geo.w) :
    ∀ (n : ℕ) (acc : List Particle × List ℕ × ℕ),
      ∀ pid ∈ (spawnLoop geo inp cells a n acc).2.1,
        pid ∈ acc.2.1 ∨
        ∃ p, (spawnLoop geo inp cells a n acc).1[pid]? = some p ∧
          doseParticleOk geo cells p := by
  intro n
  induction n with
  | zero =>
    intro acc pid hmem
    simp only [spawnLoop] at hmem
    exact Or.inl hmem
  | succ m ih =>
    intro acc pid hmem
    simp only [spawnLoop] at hmem ⊢
    obtain ⟨q, k', heq, hok⟩ :=
      spawnOneDose_spec geo inp cells a acc.1 acc.2.1 acc.2.2 hrnd hgeo
    rcases ih _ pid hmem with hold | hnew
    · rw [heq] at hold
      simp only [List.mem_append, List.mem_singleton] at hold
      rcases hold with hold | hold
      · exact Or.inl hold
      · refine Or.inr ⟨q, ?_, hok⟩
        subst hold
        refine spawnLoop_store_stable geo inp cells a m _ _ q ?_
        rw [heq]
        simp
    · exact Or.inr hnew

/-- Claim C9: `spawnDrugParticles` is a no-op for a non-number or non-positive
amount, and otherwise appends exactly `max 1 (round amount)` fresh Compound
particles, each spawned inside the vessel and either wandering (TTL 120) or
targeting a site that is Tumor at spawn time with steer aggression 0.92.
(Hypotheses: the random stream is in `[0,1)` as `Math.random` guarantees, and
the vessel interior `boundaryX y + 4 ≤ w` is nonempty as in the script's
geometry.) -/
theorem C9_dose_spawns (geo : Geo) (inp : Inputs) (cells : List Cell)
    (amount? : Option ℚ) (store : List Particle) (particles : List ℕ) (k : ℕ)
    (hrnd : ∀ j, 0 ≤ inp.rnd j ∧ inp.rnd j < 1)
    (hgeo : ∀ y, geo.boundaryX y + 4 ≤ geo.w) :
    (amount? = none →
      spawnDrugParticles geo inp cells amount? store particles k
        = (store, particles, k)) ∧
    (∀ a, amount? = some a → a ≤ 0 →
      spawnDrugParticles geo inp cells amount? store particles k
        = (store, particles, k)) ∧
    (∀ a, amount? = some a → 0 < a →
      (spawnDrugParticles geo inp cells amount? store particles k).2.1.length
          = particles.length + max 1 (jsRound a).toNat ∧
      ∀ pid ∈ (spawnDrugParticles geo inp cells amount? store particles k).2.1,
        pid ∈ particles ∨
        ∃ p, (spawnDrugParticles geo inp cells amount? store particles k).1[pid]?
              = some p ∧ doseParticleOk geo cells p) := by
  refine ⟨?_, ?_, ?_⟩
  · intro h
    subst h
    rfl
  · intro a h hle
    subst h
    simp [spawnDrugParticles, hle]
  · intro a h hpos
    subst h
    have hnle : ¬ a ≤ 0 := not_le.mpr hpos
    constructor
    · simp only [spawnDrugParticles, hnle, if_false]
      exact spawnLoop_length geo inp cells a _ _
    · intro pid hmem
      simp only [spawnDrugParticles, hnle, if_false] at hmem ⊢
      exact spawnLoop_ok geo inp cells a hrnd hgeo _ _ pid hmem

/-- Witness for C9: dosing 5 into `geoDose` (vessel at `x = 20`) with one
tumor site spawns exactly 5 compounds. -/
theorem C9_dose_spawns_witness :
    ((some (5:ℚ) : Option ℚ) = none →
      spawnDrugParticles geoDose inpHalf ((initCells geoDose).set 3 (tum 9 27 10)) (some 5) [] [] 0 = ([], [], 0)) ∧
    (∀ a, (some (5:ℚ) : Option ℚ) = some a → a ≤ 0 →
      spawnDrugParticles geoDose inpHalf ((initCells geoDose).set 3 (tum 9 27 10)) (some 5) [] [] 0 = ([], [], 0)) ∧
    (∀ a, (some (5:ℚ) : Option ℚ) = some a → 0 < a →
      (spawnDrugParticles geoDose inpHalf ((initCells geoDose).set 3 (tum 9 27 10)) (some 5) [] [] 0).2.1.length
          = ([] : List ℕ).length + max 1 (jsRound a).toNat ∧
      ∀ pid ∈ (spawnDrugParticles geoDose inpHalf ((initCells geoDose).set 3 (tum 9 27 10)) (some 5) [] [] 0).2.1,
        pid ∈ ([] : List ℕ) ∨
        ∃ p, (spawnDrugParticles geoDose inpHalf ((initCells geoDose).set 3 (tum 9 27 10)) (some 5) [] [] 0).1[pid]?
              = some p ∧ doseParticleOk geoDose ((initCells geoDose).set 3 (tum 9 27 10)) p) :=
  C9_dose_spawns geoDose inpHalf ((initCells geoDose).set 3 (tum 9 27 10))
    (some 5) [] [] 0
    (fun j => ⟨by norm_num [inpHalf], by norm_num [inpHalf]⟩)
    (fun y => by norm_num [geoDose, geoW])

/-! ## C5: seeding produces one 8-connected, vessel-free tumor cluster -/

/-- 8-adjacency of two row-major grid indices. -/
def adj8 (cols : ℕ) (a b : ℕ) : Prop :=
  a ≠ b ∧ ((a % cols : ℤ) - (b % cols : ℤ)).natAbs ≤ 1 ∧
    ((a / cols : ℤ) - (b / cols : ℤ)).natAbs ≤ 1

/-- Index `i` holds a tumor cell. -/
def IsTumor (cells : List Cell) (i : ℕ) : Prop :=
  ∃ c, cells[i]? = some c ∧ c.state = 1

/-- One step inside the tumor set. -/
def tumorAdjRel (cols : ℕ) (cells : List Cell) (a b : ℕ) : Prop :=
  IsTumor cells a ∧ IsTumor cells b ∧ adj8 cols a b

/-- All tumor sites are mutually reachable through tumor sites (together with
nonemptiness this says the tumor sites form a single 8-connected component). -/
def TumorConnected (cols : ℕ) (cells : List Cell) : Prop :=
  ∀ a b, IsTumor cells a → IsTumor cells b →
    Relation.ReflTransGen (tumorAdjRel cols cells) a b

/-- The grid's positions are the canonical row-major lattice (as `initCells`
builds them), so the script's position-derived grid coordinates recover the
index. -/
def GridPos (cols : ℕ) (cells : List Cell) : Prop :=
  ∀ (i : ℕ) (c : Cell), cells[i]? = some c →
    c.x = spacing/2 + (i % cols : ℕ) * spacing ∧
    c.y = spacing/2 + (i / cols : ℕ) * spacing

theorem jsRound_natCast (m : ℕ) : jsRound (m : ℚ) = m := by
  unfold jsRound
  rw [Int.floor_eq_iff]
  constructor
  · push_cast
    linarith
  · push_cast
    linarith

theorem adj8_symm {cols a b : ℕ} (h : adj8 cols a b) : adj8 cols b a := by
  obtain ⟨h1, h2, h3⟩ := h
  exact ⟨fun e => h1 e.symm, by omega, by omega⟩

/-- Under `GridPos`, the script's reconstructed grid coordinates of the cell
at index `i` are `(i % cols, i / cols)`. -/
theorem derived_eq_of_gridPos {cols : ℕ} {cells : List Cell} {i : ℕ} {c : Cell}
    (hpos : GridPos cols cells) (hget : cells[i]? = some c) :
    derivedIx c = (i % cols : ℕ) ∧ derivedIy c = (i / cols : ℕ) := by
  obtain ⟨hx, hy⟩ := hpos i c hget
  constructor
  · unfold derivedIx
    rw [hx]
    have : (spacing/2 + (i % cols : ℕ) * spacing - spacing/2) / spacing
        = ((i % cols : ℕ) : ℚ) := by
      unfold spacing
      ring_nf
    rw [this, jsRound_natCast]
  · unfold derivedIy
    rw [hy]
    have : (spacing/2 + (i / cols : ℕ) * spacing - spacing/2) / spacing
        = ((i / cols : ℕ) : ℚ) := by
      unfold spacing
      ring_nf
    rw [this, jsRound_natCast]

theorem grid_flatMap_length {α : Type} (rows cols : ℕ) (f : ℕ → ℕ → α) :
    ((List.range rows).flatMap (fun iy => (List.range cols).map (fun ix => f iy ix))).length
      = rows * cols := by
  induction rows with
  | zero => simp
  | succ n ih =>
    rw [List.range_succ, List.flatMap_append]
    simp [ih, Nat.succ_mul]

theorem grid_flatMap_getElem {α : Type} (rows cols : ℕ) (f : ℕ → ℕ → α) (i : ℕ) (c : α)
    (h : ((List.range rows).flatMap (fun iy => (List.range cols).map (fun ix => f iy ix)))[i]?
      = some c) :
    i < rows * cols ∧ c = f (i / cols) (i % cols) := by
  induction rows with
  | zero => simp at h
  | succ n ih =>
    rw [List.range_succ, List.flatMap_append, List.getElem?_append] at h
    by_cases hlt : i < n * cols
    · rw [if_pos (by rwa [grid_flatMap_length])] at h
      obtain ⟨h1, h2⟩ := ih h
      have hsucc : (n+1) * cols = n * cols + cols := Nat.succ_mul n cols
      exact ⟨by omega, h2⟩
    · rw [if_neg (by rwa [grid_flatMap_length])] at h
      rw [grid_flatMap_length] at h
      simp only [List.flatMap_singleton, List.getElem?_map] at h
      rcases hr : (List.range cols)[i - n * cols]? with _ | j
      · rw [hr] at h
        exact absurd h (by simp)
      · rw [hr] at h
        rw [Option.map_some'] at h
        have hj : j = i - n * cols ∧ i - n * cols < cols := by
          have := List.getElem?_eq_some.mp hr
          obtain ⟨hb, hv⟩ := this
          simp at hv
          exact ⟨hv.symm, by simpa using hb⟩
        have hcols : 0 < cols := by omega
        have hdiv : i / cols = n := by
          have : i = (i - n * cols) + n * cols := by omega
          rw [this, Nat.add_mul_div_right _ _ hcols, Nat.div_eq_of_lt hj.2]
          omega
        have hmod : i % cols = i - n * cols := by
          have : i = (i - n * cols) + n * cols := by omega
          rw [this, Nat.add_mul_mod_self_right, Nat.mod_eq_of_lt hj.2]
          omega
        have hsucc : (n+1) * cols = n * cols + cols := Nat.succ_mul n cols
        refine ⟨by omega, ?_⟩
        rw [hdiv, hmod, ← hj.1]
        exact (Option.some.inj h).symm

theorem initCells_eq (geo : Geo) :
    initCells geo = (List.range (gridRows geo)).flatMap (fun iy =>
      (List.range (gridCols geo)).map (fun (ix : ℕ) =>
        ({ x := spacing/2 + (ix : ℚ) * spacing, y := spacing/2 + (iy : ℚ) * spacing
           state := 0, size := 0 } : Cell))) := by
  unfold initCells
  simp only [bind_pure_comp, Functor.map, ← List.map_eq_flatMap, List.map_map]
  rfl

theorem initCells_gridPos (geo : Geo) : GridPos (gridCols geo) (initCells geo) := by
  intro i c hget
  rw [initCells_eq] at hget
  obtain ⟨-, hc⟩ := grid_flatMap_getElem (gridRows geo) (gridCols geo)
    (fun (iy ix : ℕ) => { x := spacing/2 + (ix : ℚ) * spacing, y := spacing/2 + (iy : ℚ) * spacing
                          state := 0, size := 0 }) i c hget
  subst hc
  exact ⟨rfl, rfl⟩

/-- Every cell's state is 0 or 1 (the only states the script ever writes). -/
def State01 (cells : List Cell) : Prop :=
  ∀ (i : ℕ) (c : Cell), cells[i]? = some c → c.state = 0 ∨ c.state = 1

theorem gridPos_set (cols : ℕ) (cells : List Cell) (idx : ℕ) (c a : Cell)
    (hpos : GridPos cols cells) (hget : cells[idx]? = some c)
    (hx : a.x = c.x) (hy : a.y = c.y) :
    GridPos cols (cells.set idx a) := by
  intro i d hg
  rw [List.getElem?_set] at hg
  by_cases e : idx = i
  · simp only [e, if_true] at hg
    split at hg
    · cases hg
      rw [hx, hy]
      rw [e] at hget
      exact hpos i c hget
    · cases hg
  · exact hpos i d (by simpa [e] using hg)

theorem state01_set (cells : List Cell) (idx : ℕ) (a : Cell)
    (h01 : State01 cells) (ha : a.state = 0 ∨ a.state = 1) :
    State01 (cells.set idx a) := by
  intro i d hg
  rw [List.getElem?_set] at hg
  by_cases e : idx = i
  · simp only [e, if_true] at hg
    split at hg
    · cases hg
      exact ha
    · cases hg
  · exact h01 i d (by simpa [e] using hg)

theorem isTumor_set_of_state1 (cells : List Cell) (idx : ℕ) (a : Cell)
    (ha : a.state = 1) {i : ℕ} (ht : IsTumor cells i) :
    IsTumor (cells.set idx a) i := by
  obtain ⟨c, hget, hs⟩ := ht
  by_cases e : idx = i
  · subst e
    refine ⟨a, ?_, ha⟩
    rw [List.getElem?_set, if_pos rfl, if_pos (List.getElem?_eq_some.mp hget).1]
  · exact ⟨c, by rw [List.getElem?_set, if_neg e]; exact hget, hs⟩

theorem isTumor_set_self (cells : List Cell) (idx : ℕ) (a : Cell)
    (ha : a.state = 1) (hlt : idx < cells.length) :
    IsTumor (cells.set idx a) idx :=
  ⟨a, by rw [List.getElem?_set, if_pos rfl, if_pos hlt], ha⟩

theorem isTumor_set_elim {cells : List Cell} {idx : ℕ} {a : Cell} {i : ℕ}
    (ht : IsTumor (cells.set idx a) i) : i = idx ∨ IsTumor cells i := by
  obtain ⟨c, hget, hs⟩ := ht
  by_cases e : idx = i
  · exact Or.inl e.symm
  · rw [List.getElem?_set, if_neg e] at hget
    exact Or.inr ⟨c, hget, hs⟩

theorem tumorAdjRel_mono_set (cols : ℕ) (cells : List Cell) (idx : ℕ) (a : Cell)
    (ha : a.state = 1) {x y : ℕ} (h : tumorAdjRel cols cells x y) :
    tumorAdjRel cols (cells.set idx a) x y :=
  ⟨isTumor_set_of_state1 cells idx a ha h.1,
   isTumor_set_of_state1 cells idx a ha h.2.1, h.2.2⟩

theorem tumorAdjRel_symm (cols : ℕ) (cells : List Cell) :
    Symmetric (tumorAdjRel cols cells) :=
  fun _ _ h => ⟨h.2.1, h.1, adj8_symm h.2.2⟩

/-- Converting one site that is adjacent to an existing tumor site (or is the
very first tumor site) keeps the tumor set 8-connected. -/
theorem tumorConnected_insert (cols : ℕ) (cells : List Cell) (idx : ℕ) (a : Cell)
    (ha : a.state = 1) (hconn : TumorConnected cols cells)
    (hlink : (∀ j, ¬ IsTumor cells j) ∨ ∃ u, IsTumor cells u ∧ adj8 cols u idx) :
    TumorConnected cols (cells.set idx a) := by
  by_cases hlt : idx < cells.length
  · have hmono : ∀ {x y : ℕ}, Relation.ReflTransGen (tumorAdjRel cols cells) x y →
        Relation.ReflTransGen (tumorAdjRel cols (cells.set idx a)) x y :=
      fun h => Relation.ReflTransGen.mono
        (fun _ _ => tumorAdjRel_mono_set cols cells idx a ha) h
    have hidxT : IsTumor (cells.set idx a) idx := isTumor_set_self cells idx a ha hlt
    have hpath : ∀ j, IsTumor (cells.set idx a) j →
        Relation.ReflTransGen (tumorAdjRel cols (cells.set idx a)) idx j := by
      intro j hj
      by_cases hne : j = idx
      · rw [hne]
      · have hjold : IsTumor cells j :=
          (isTumor_set_elim hj).resolve_left hne
        rcases hlink with hno | ⟨u, hu, hadj⟩
        · exact absurd hjold (hno j)
        · have huT : IsTumor (cells.set idx a) u := isTumor_set_of_state1 cells idx a ha hu
          exact Relation.ReflTransGen.head ⟨hidxT, huT, adj8_symm hadj⟩
            (hmono (hconn u j hu hjold))
    intro x y hx hy
    exact Relation.ReflTransGen.trans
      ((Relation.ReflTransGen.symmetric (tumorAdjRel_symm cols (cells.set idx a)))
        (hpath x hx))
      (hpath y hy)
  · rw [List.set_eq_of_length_le (by omega)]
    exact hconn

theorem mem_swapIdx {α : Type} {v : α} {l : List α} {i j : ℕ}
    (h : v ∈ swapIdx l i j) : v ∈ l := by
  unfold swapIdx at h
  rcases ha : l[i]? with _ | a <;> rcases hb : l[j]? with _ | b <;>
    rw [ha, hb] at h
  · exact h
  · exact h
  · exact h
  · rcases List.mem_or_eq_of_mem_set h with h1 | h1
    · rcases List.mem_or_eq_of_mem_set h1 with h2 | h2
      · exact h2
      · rw [h2]
        exact List.getElem?_mem hb
    · rw [h1]
      exact List.getElem?_mem ha

theorem fyGo_mem {α : Type} (inp : Inputs) :
    ∀ (idxs : List ℕ) (l : List α) (k : ℕ) {v : α},
      v ∈ (fyGo inp idxs l k).1 → v ∈ l := by
  intro idxs
  induction idxs with
  | nil =>
    intro l k v h
    exact h
  | cons i rest ih =>
    intro l k v h
    exact mem_swapIdx (ih _ _ h)

theorem shuffleJS_mem {α : Type} (inp : Inputs) (l : List α) (k : ℕ) {v : α}
    (h : v ∈ (shuffleJS inp l k).1) : v ∈ l :=
  fyGo_mem inp _ l k h

theorem enqueueGo_mem (cols rows : ℕ) :
    ∀ (offs : List (ℤ × ℤ)) (q seen : List ℕ) {v : ℕ},
      v ∈ (enqueueGo cols rows offs q seen).1 →
      v ∈ q ∨ ∃ p ∈ offs, 0 ≤ cellIndex cols rows p.1 p.2 ∧
        (cellIndex cols rows p.1 p.2).toNat = v := by
  intro offs
  induction offs with
  | nil =>
    intro q seen v h
    exact Or.inl h
  | cons p rest ih =>
    intro q seen v h
    obtain ⟨nx, ny⟩ := p
    unfold enqueueGo at h
    dsimp only at h
    split at h
    · next hcond =>
      rcases ih _ _ h with hq | ⟨p, hp, hpos, hval⟩
      · rcases List.mem_append.mp hq with hq1 | hq1
        · exact Or.inl hq1
        · refine Or.inr ⟨(nx, ny), List.mem_cons_self _ _, hcond.1, ?_⟩
          simpa using (List.mem_singleton.mp hq1).symm
      · exact Or.inr ⟨p, List.mem_cons_of_mem _ hp, hpos, hval⟩
    · rcases ih _ _ h with hq | ⟨p, hp, hpos, hval⟩
      · exact Or.inl hq
      · exact Or.inr ⟨p, List.mem_cons_of_mem _ hp, hpos, hval⟩

/-- In-range neighbor coordinates map through `cellIndex` to an index
8-adjacent to the center. -/
theorem cellIndex_adj (cols rows idx : ℕ) (ox oy : ℤ) (v : ℕ)
    (hmem : (ox, oy) ∈ neighborOffsets)
    (h0 : 0 ≤ cellIndex cols rows ((idx % cols : ℕ) + ox) ((idx / cols : ℕ) + oy))
    (hv : (cellIndex cols rows ((idx % cols : ℕ) + ox) ((idx / cols : ℕ) + oy)).toNat = v) :
    adj8 cols v idx := by
  have hoff : ox.natAbs ≤ 1 ∧ oy.natAbs ≤ 1 ∧ ¬(ox = 0 ∧ oy = 0) := by
    simp only [neighborOffsets, List.mem_cons, List.not_mem_nil, or_false,
      Prod.mk.injEq] at hmem
    rcases hmem with ⟨h1, h2⟩ | ⟨h1, h2⟩ | ⟨h1, h2⟩ | ⟨h1, h2⟩ | ⟨h1, h2⟩ |
      ⟨h1, h2⟩ | ⟨h1, h2⟩ | ⟨h1, h2⟩ <;> subst h1 <;> subst h2 <;>
      exact ⟨by decide, by decide, by decide⟩
  unfold cellIndex at h0 hv
  split at h0
  · exact absurd h0 (by decide)
  · next hg =>
    push_neg at hg
    obtain ⟨hox0, hoy0, hoxc, hoyr⟩ := hg
    rw [if_neg (by push_neg; exact ⟨hox0, hoy0, hoxc, hoyr⟩)] at hv
    set A := idx % cols with hA
    set B := idx / cols with hB
    set na := ((A : ℤ) + ox).toNat with hna
    set nb := ((B : ℤ) + oy).toNat with hnb
    have e1 : (na : ℤ) = (A : ℤ) + ox := Int.toNat_of_nonneg hox0
    have e2 : (nb : ℤ) = (B : ℤ) + oy := Int.toNat_of_nonneg hoy0
    have hnalt : na < cols := by omega
    have hnblt : nb < rows := by omega
    have hcols : 0 < cols := by omega
    have hvn : v = na + nb * cols := by
      have hz : (((B : ℤ) + oy) * cols + ((A : ℤ) + ox)) = ((na + nb * cols : ℕ) : ℤ) := by
        push_cast
        rw [e1, e2]
        ring
      rw [← hv, hz, Int.toNat_natCast]
    have hmod : v % cols = na := by
      rw [hvn, Nat.add_mul_mod_self_right, Nat.mod_eq_of_lt hnalt]
    have hdiv : v / cols = nb := by
      rw [hvn, Nat.add_mul_div_right _ _ hcols, Nat.div_eq_of_lt hnalt]
      omega
    refine ⟨?_, ?_, ?_⟩
    · intro hvidx
      rw [hvidx, ← hA] at hmod
      rw [hvidx, ← hB] at hdiv
      rw [hmod] at e1
      rw [hdiv] at e2
      exact hoff.2.2 ⟨by omega, by omega⟩
    · rw [← Int.natCast_mod v cols, ← Int.natCast_mod idx cols, hmod, ← hA]
      have := hoff.1
      omega
    · rw [← Int.natCast_div v cols, ← Int.natCast_div idx cols, hdiv, ← hB]
      have := hoff.2.1
      omega

/-- The BFS invariant: the grid sits on the canonical lattice, states are
boolean, the tumor set is 8-connected, and every queued index is tumor or
8-adjacent to a tumor (before the first conversion the queue is just the
start index). -/
def SeedInv (cols : ℕ) (cells : List Cell) (q : List ℕ) : Prop :=
  GridPos cols cells ∧ State01 cells ∧ TumorConnected cols cells ∧
    ((∀ j, ¬ IsTumor cells j) ∧ q.length ≤ 1 ∨
     ∀ v ∈ q, IsTumor cells v ∨ ∃ u, IsTumor cells u ∧ adj8 cols u v)

theorem seedLoop_seedInv (geo : Geo) (inp : Inputs) :
    ∀ (fuel : ℕ) (cells : List Cell) (q seen : List ℕ) (seeded target k : ℕ),
      SeedInv (gridCols geo) cells q →
      GridPos (gridCols geo) (seedLoop geo inp fuel cells q seen seeded target k).1 ∧
      State01 (seedLoop geo inp fuel cells q seen seeded target k).1 ∧
      TumorConnected (gridCols geo) (seedLoop geo inp fuel cells q seen seeded target k).1 := by
  intro fuel
  induction fuel with
  | zero =>
    intro cells q seen seeded target k hinv
    simpa [seedLoop] using ⟨hinv.1, hinv.2.1, hinv.2.2.1⟩
  | succ n ih =>
    intro cells q seen seeded target k hinv
    obtain ⟨hpos, h01, hconn, hq⟩ := hinv
    simp only [seedLoop]
    split
    · exact ⟨hpos, h01, hconn⟩
    · next idx qrest =>
      split
      · split
        · next hnone =>
          refine ih _ _ _ _ _ _ ?_
          refine ⟨hpos, h01, hconn, ?_⟩
          rcases hq with ⟨hno, hlen⟩ | hadjq
          · exact Or.inl ⟨hno, by simp only [List.length_cons] at hlen; omega⟩
          · exact Or.inr (fun v hv => hadjq v (List.mem_cons_of_mem _ hv))
        · next c hcell =>
          split
          · refine ih _ _ _ _ _ _ ?_
            refine ⟨hpos, h01, hconn, ?_⟩
            rcases hq with ⟨hno, hlen⟩ | hadjq
            · exact Or.inl ⟨hno, by simp only [List.length_cons] at hlen; omega⟩
            · exact Or.inr (fun v hv => hadjq v (List.mem_cons_of_mem _ hv))
          · next hves =>
            have hlt : idx < cells.length := (List.getElem?_eq_some.mp hcell).1
            have hderiv := derived_eq_of_gridPos hpos hcell
            split
            · next hconv =>
              have hst0 : c.state = 0 := by simpa using hconv
              have hnotum : ¬ IsTumor cells idx := by
                rintro ⟨d, hd, hs⟩
                rw [hcell] at hd
                cases hd
                rw [hst0] at hs
                cases hs
              have hlink : (∀ j, ¬ IsTumor cells j) ∨
                  ∃ u, IsTumor cells u ∧ adj8 (gridCols geo) u idx := by
                rcases hq with ⟨hno, _⟩ | hadjq
                · exact Or.inl hno
                · rcases hadjq idx (List.mem_cons_self _ _) with ht | hu
                  · exact absurd ht hnotum
                  · exact Or.inr hu
              refine ih _ _ _ _ _ _ ?_
              refine ⟨gridPos_set _ cells idx c _ hpos hcell rfl rfl,
                state01_set cells idx _ h01 (Or.inr rfl),
                tumorConnected_insert _ cells idx _ rfl hconn hlink, Or.inr ?_⟩
              intro v hv
              have hidxT : IsTumor (cells.set idx { c with state := 1, size := 12 + inp.rnd k * 10 }) idx :=
                isTumor_set_self cells idx _ rfl hlt
              rcases enqueueGo_mem _ _ _ _ _ hv with hvq | ⟨p, hp, hppos, hpval⟩
              · rcases hq with ⟨hno, hlen⟩ | hadjq
                · have : qrest = [] := by
                    simp only [List.length_cons] at hlen
                    exact List.length_eq_zero.mp (by omega)
                  rw [this] at hvq
                  cases hvq
                · rcases hadjq v (List.mem_cons_of_mem _ hvq) with ht | ⟨u, hu, hadj⟩
                  · exact Or.inl (isTumor_set_of_state1 cells idx _ rfl ht)
                  · exact Or.inr ⟨u, isTumor_set_of_state1 cells idx _ rfl hu, hadj⟩
              · have hpn : p ∈ neighborOffsets.map
                    (fun od => (derivedIx c + od.1, derivedIy c + od.2)) :=
                  shuffleJS_mem inp _ _ hp
                obtain ⟨od, hod, hpe⟩ := List.mem_map.mp hpn
                rw [← hpe] at hppos hpval
                rw [hderiv.1, hderiv.2] at hppos hpval
                have hadj : adj8 (gridCols geo) v idx :=
                  cellIndex_adj (gridCols geo) (gridRows geo) idx od.1 od.2 v
                    (by rcases od with ⟨o1, o2⟩; exact hod) hppos hpval
                exact Or.inr ⟨idx, hidxT, adj8_symm hadj⟩
            · next hconv =>
              have hst1 : c.state = 1 := by
                rcases h01 idx c hcell with h | h
                · exact absurd (by simpa using h) hconv
                · exact h
              have hidxT : IsTumor cells idx := ⟨c, hcell, hst1⟩
              refine ih _ _ _ _ _ _ ?_
              refine ⟨hpos, h01, hconn, Or.inr ?_⟩
              intro v hv
              rcases enqueueGo_mem _ _ _ _ _ hv with hvq | ⟨p, hp, hppos, hpval⟩
              · rcases hq with ⟨hno, hlen⟩ | hadjq
                · exact absurd hidxT (hno idx)
                · exact hadjq v (List.mem_cons_of_mem _ hvq)
              · have hpn : p ∈ neighborOffsets.map
                    (fun od => (derivedIx c + od.1, derivedIy c + od.2)) :=
                  shuffleJS_mem inp _ _ hp
                obtain ⟨od, hod, hpe⟩ := List.mem_map.mp hpn
                rw [← hpe] at hppos hpval
                rw [hderiv.1, hderiv.2] at hppos hpval
                have hadj : adj8 (gridCols geo) v idx :=
                  cellIndex_adj (gridCols geo) (gridRows geo) idx od.1 od.2 v
                    (by rcases od with ⟨o1, o2⟩; exact hod) hppos hpval
                exact Or.inr ⟨idx, hidxT, adj8_symm hadj⟩
      · exact ⟨hpos, h01, hconn⟩

theorem seedClear_gridPos (cols : ℕ) (cells : List Cell)
    (hpos : GridPos cols cells) : GridPos cols (seedClear cells) := by
  intro i d hg
  unfold seedClear at hg
  rw [List.getElem?_map] at hg
  rcases hc : cells[i]? with _ | c
  · rw [hc] at hg
    cases hg
  · rw [hc] at hg
    rw [Option.map_some'] at hg
    cases hg
    exact hpos i c hc

theorem seedClear_state01 (cells : List Cell) : State01 (seedClear cells) := by
  intro i d hg
  have hmem : d ∈ seedClear cells := List.getElem?_mem hg
  simp only [seedClear, List.mem_map] at hmem
  obtain ⟨c0, _, hc⟩ := hmem
  rw [← hc]
  exact Or.inl rfl

theorem seedClear_noTumor (cells : List Cell) : ∀ j, ¬ IsTumor (seedClear cells) j := by
  rintro j ⟨d, hg, hs⟩
  have hmem : d ∈ seedClear cells := List.getElem?_mem hg
  simp only [seedClear, List.mem_map] at hmem
  obtain ⟨c0, _, hc⟩ := hmem
  rw [← hc] at hs
  cases hs

theorem seedClear_connected (cols : ℕ) (cells : List Cell) :
    TumorConnected cols (seedClear cells) := by
  intro a b ha _
  exact absurd ha (seedClear_noTumor cells a)

/-- Already-seeded tumor sites survive the rest of the BFS unchanged in state. -/
theorem seedLoop_tumor_mono (geo : Geo) (inp : Inputs) :
    ∀ (fuel : ℕ) (cells : List Cell) (q seen : List ℕ) (seeded target k : ℕ) (i : ℕ),
      IsTumor cells i →
      IsTumor (seedLoop geo inp fuel cells q seen seeded target k).1 i := by
  intro fuel
  induction fuel with
  | zero =>
    intro cells q seen seeded target k i ht
    simpa [seedLoop] using ht
  | succ n ih =>
    intro cells q seen seeded target k i ht
    simp only [seedLoop]
    split
    · exact ht
    · split
      · split
        · exact ih _ _ _ _ _ _ _ ht
        · split
          · exact ih _ _ _ _ _ _ _ ht
          · split
            · exact ih _ _ _ _ _ _ _ (isTumor_set_of_state1 _ _ _ rfl ht)
            · exact ih _ _ _ _ _ _ _ ht
      · exact ht

/-- With positive target and a healthy, extra-vascular start cell, the first
BFS iteration converts the start site, which then stays tumor. -/
theorem seedLoop_first_convert (geo : Geo) (inp : Inputs) (fuel : ℕ)
    (cells : List Cell) (s : ℕ) (qrest seen : List ℕ) (target k : ℕ) (c : Cell)
    (hc : cells[s]? = some c) (hnv : isInVesselXY geo c.x c.y = false)
    (hstate : c.state = 0) (htarget : 0 < target) :
    ∃ i, IsTumor (seedLoop geo inp (fuel+1) cells (s :: qrest) seen 0 target k).1 i := by
  have hlt : s < cells.length := (List.getElem?_eq_some.mp hc).1
  simp only [seedLoop]
  rw [if_pos htarget]
  rw [hc]
  dsimp only
  rw [if_neg (by rw [hnv]; exact Bool.false_ne_true)]
  rw [if_pos (by rw [hstate]; rfl)]
  simp only [hstate, beq_self_eq_true, if_true]
  exact ⟨s, seedLoop_tumor_mono geo inp _ _ _ _ _ _ _ s
    (isTumor_set_self cells s _ rfl hlt)⟩

/-- Claim C5: immediately after the Cluster Seeder runs on the canonical
grid (positions on the row-major lattice, as `initCells` builds them), with a
healthy start cell outside the vessel, the set of Tumor sites is nonempty,
forms a single 8-connected component, and contains no site whose position is
inside the vessel region. -/
theorem C5_seed_connected (geo : Geo) (inp : Inputs) (cells0 : List Cell) (k : ℕ)
    (hpos : GridPos (gridCols geo) cells0)
    (hstart : ∃ c, (seedClear cells0)[seedStartIdx geo inp (seedClear cells0) k]? = some c ∧
      isInVesselXY geo c.x c.y = false) :
    (∃ i, IsTumor (seedInitial geo inp cells0 k).1 i) ∧
    TumorConnected (gridCols geo) (seedInitial geo inp cells0 k).1 ∧
    VesselInv geo (seedInitial geo inp cells0 k).1 := by
  refine ⟨?_, ?_, seedInitial_vesselInv geo inp cells0 k⟩
  · obtain ⟨c, hc, hnv⟩ := hstart
    have hc0 : c.state = 0 := by
      have hmem : c ∈ seedClear cells0 := List.getElem?_mem hc
      simp only [seedClear, List.mem_map] at hmem
      obtain ⟨c0, _, he⟩ := hmem
      rw [← he]
    unfold seedInitial
    dsimp only
    exact seedLoop_first_convert geo inp _ _ _ _ _ _ _ c hc hnv hc0
      (by unfold seedTargetCount; omega)
  · unfold seedInitial
    dsimp only
    exact (seedLoop_seedInv geo inp _ _ _ _ _ _ _
      ⟨seedClear_gridPos _ _ hpos, seedClear_state01 _, seedClear_connected _ _,
        Or.inl ⟨seedClear_noTumor _, by simp⟩⟩).2.2

theorem C5_seed_connected_witness :
    (∃ i, IsTumor (seedInitial geoW inpHalf (initCells geoW) 0).1 i) ∧
    TumorConnected (gridCols geoW) (seedInitial geoW inpHalf (initCells geoW) 0).1 ∧
    VesselInv geoW (seedInitial geoW inpHalf (initCells geoW) 0).1 :=
  C5_seed_connected geoW inpHalf (initCells geoW) 0 (initCells_gridPos geoW)
    ⟨{ x := 27, y := 27, state := 0, size := 0 },
      by with_unfolding_all decide, by with_unfolding_all decide⟩
